import Mathlib

set_option maxRecDepth 100000

/-!
Verification of the dinacom-be dyslexia question engine
=======================================================

Shallow embedding of the Go backend `github.com/evandrarf/dinacom-be`
(usecase `dyslexiaQuestionUsecase`, repository `dyslexiaQuestionRepository`
and the supporting entities), together with proofs settling the frozen
claims about the question-generation, answer-submission, session-report
and chat components.

Modelling conventions:
* Machine integers are `Nat`/`Int` with explicit `% 2^32` where the Go code
  relies on 32-bit wraparound (the SHA-256 core).
* The relational store is an explicit `DB` record of row lists; `gorm`
  queries become pure functions over it.  A query with `ORDER BY RANDOM()`
  is modelled by treating the row list's order as the random order chosen
  by the database, so quantifying over all `DB` values covers all draws.
* Calls to the remote LLM are modelled by oracle parameters describing the
  observable outcome of each call (transport error / unparsable output /
  parsed value), and the process-local random generator by explicit
  streams of drawn numbers.
* Fallible Go code returns `Except`/`Option`.
-/

/-! ## SHA-256 (crypto/sha256), hex (encoding/hex) and UTF-8 bytes

`generateQuestionID` hashes `word + "|" + difficulty + "|" + uniqueness`
with SHA-256 and hex-encodes the first 8 bytes.  The round constants are
derived, as in FIPS 180-4, from the fractional parts of the cube/square
roots of the first primes; we compute them from the primes with exact
integer arithmetic instead of transcribing the tables. -/

/-- Integer binary search step for the cube root: shrinks `[lo, hi)` keeping
`lo^3 ≤ n < hi^3`. -/
def icbrtAux : Nat → Nat → Nat → Nat → Nat
  | 0, lo, _, _ => lo
  | fuel + 1, lo, hi, n =>
    if hi ≤ lo + 1 then lo
    else
      let m := (lo + hi) / 2
      if m ^ 3 ≤ n then icbrtAux fuel m hi n else icbrtAux fuel lo m n

/-- Integer cube root: the largest `r` with `r^3 ≤ n` (for the fuel provided,
which covers all inputs used here). -/
def icbrt (n : Nat) : Nat := icbrtAux 200 0 (n + 2) n

/-- Integer binary search step for the square root: shrinks `[lo, hi)`
keeping `lo^2 ≤ n < hi^2`. -/
def isqrtAux : Nat → Nat → Nat → Nat → Nat
  | 0, lo, _, _ => lo
  | fuel + 1, lo, hi, n =>
    if hi ≤ lo + 1 then lo
    else
      let m := (lo + hi) / 2
      if m ^ 2 ≤ n then isqrtAux fuel m hi n else isqrtAux fuel lo m n

/-- Integer square root: the largest `r` with `r^2 ≤ n` (for the fuel
provided, which covers all inputs used here). -/
def isqrt (n : Nat) : Nat := isqrtAux 200 0 (n + 2) n

/-- The first 64 primes, source of the SHA-256 constants. -/
def sha256Primes : List Nat :=
  [2, 3, 5, 7, 11, 13, 17, 19, 23, 29, 31, 37, 41, 43, 47, 53,
   59, 61, 67, 71, 73, 79, 83, 89, 97, 101, 103, 107, 109, 113, 127, 131,
   137, 139, 149, 151, 157, 163, 167, 173, 179, 181, 191, 193, 197, 199, 211, 223,
   227, 229, 233, 239, 241, 251, 257, 263, 269, 271, 277, 281, 283, 293, 307, 311]

/-- SHA-256 initial hash state: first 32 bits of the fractional parts of the
square roots of the first 8 primes. -/
def sha256H0 : List Nat :=
  (sha256Primes.take 8).map (fun p => isqrt (p * 2 ^ 64) % 2 ^ 32)

/-- SHA-256 round constants: first 32 bits of the fractional parts of the
cube roots of the first 64 primes. -/
def sha256K : List Nat :=
  sha256Primes.map (fun p => icbrt (p * 2 ^ 96) % 2 ^ 32)

/-- 32-bit right rotation. -/
def rotr (n x : Nat) : Nat :=
  ((x >>> n) ||| ((x <<< (32 - n)) &&& 4294967295)) &&& 4294967295

def smallSigma0 (x : Nat) : Nat := (rotr 7 x) ^^^ (rotr 18 x) ^^^ (x >>> 3)

def smallSigma1 (x : Nat) : Nat := (rotr 17 x) ^^^ (rotr 19 x) ^^^ (x >>> 10)

def bigSigma0 (x : Nat) : Nat := (rotr 2 x) ^^^ (rotr 13 x) ^^^ (rotr 22 x)

def bigSigma1 (x : Nat) : Nat := (rotr 6 x) ^^^ (rotr 11 x) ^^^ (rotr 25 x)

def chF (x y z : Nat) : Nat := (x &&& y) ^^^ ((x ^^^ 4294967295) &&& z)

def majF (x y z : Nat) : Nat := (x &&& y) ^^^ (x &&& z) ^^^ (y &&& z)

/-- Big-endian assembly of 32-bit words from a byte list. -/
def toWords : List Nat → List Nat
  | b0 :: b1 :: b2 :: b3 :: rest =>
    ((((b0 <<< 8) ||| b1) <<< 8 ||| b2) <<< 8 ||| b3) :: toWords rest
  | _ => []

/-- Big-endian bytes of one 32-bit word. -/
def wordBytes (w : Nat) : List Nat :=
  [(w >>> 24) &&& 255, (w >>> 16) &&& 255, (w >>> 8) &&& 255, w &&& 255]

/-- Next word of the SHA-256 message schedule, from the words built so far. -/
def nextScheduleWord (w : List Nat) : Nat :=
  (smallSigma1 (w.getD (w.length - 2) 0) + w.getD (w.length - 7) 0 +
      smallSigma0 (w.getD (w.length - 15) 0) + w.getD (w.length - 16) 0) % 4294967296

def extendSchedule : Nat → List Nat → List Nat
  | 0, w => w
  | n + 1, w => extendSchedule n (w ++ [nextScheduleWord w])

/-- The 64-word message schedule of one 64-byte block. -/
def sha256Schedule (block : List Nat) : List Nat :=
  extendSchedule 48 (toWords block)

/-- One SHA-256 round on the state `[a, b, c, d, e, f, g, h]`. -/
def sha256Round (state : List Nat) (kw : Nat × Nat) : List Nat :=
  match state with
  | [a, b, c, d, e, f, g, h] =>
    let t1 := (h + bigSigma1 e + chF e f g + kw.1 + kw.2) % 4294967296
    let t2 := (bigSigma0 a + majF a b c) % 4294967296
    [(t1 + t2) % 4294967296, a, b, c, (d + t1) % 4294967296, e, f, g]
  | s => s

/-- Compression of one 64-byte block into the running hash state. -/
def sha256Compress (h : List Nat) (block : List Nat) : List Nat :=
  (h.zip ((sha256K.zip (sha256Schedule block)).foldl sha256Round h)).map
    (fun p => (p.1 + p.2) % 4294967296)

/-- Number of zero padding bytes between the `0x80` marker and the length. -/
def sha256PadZeros (len : Nat) : Nat := (64 - ((len + 9) % 64)) % 64

/-- Big-endian 8-byte encoding of the message bit length. -/
def sha256LenBytes (bitLen : Nat) : List Nat :=
  (List.range 8).map (fun i => (bitLen >>> (8 * (7 - i))) &&& 255)

/-- Split into 64-byte chunks (fuel-driven structural recursion). -/
def chunks64 : Nat → List Nat → List (List Nat)
  | 0, _ => []
  | _, [] => []
  | fuel + 1, l => l.take 64 :: chunks64 fuel (l.drop 64)

/-- The padded message: `0x80` marker, zero fill, big-endian bit length. -/
def sha256Pad (msg : List Nat) : List Nat :=
  msg ++ 128 :: List.replicate (sha256PadZeros msg.length) 0 ++
    sha256LenBytes (8 * msg.length)

/-- SHA-256 of a byte list, as its 32-byte digest. -/
def sha256 (msg : List Nat) : List Nat :=
  (((chunks64 (sha256Pad msg).length (sha256Pad msg)).foldl
      sha256Compress sha256H0).map wordBytes).flatten

/-- UTF-8 encoding of one character, as Go's `[]byte(string)` produces. -/
def charUtf8 (c : Char) : List Nat :=
  let n := c.toNat
  if n < 128 then [n]
  else if n < 2048 then [192 ||| (n >>> 6), 128 ||| (n &&& 63)]
  else if n < 65536 then
    [224 ||| (n >>> 12), 128 ||| ((n >>> 6) &&& 63), 128 ||| (n &&& 63)]
  else
    [240 ||| (n >>> 18), 128 ||| ((n >>> 12) &&& 63),
     128 ||| ((n >>> 6) &&& 63), 128 ||| (n &&& 63)]

/-- The UTF-8 bytes of a string. -/
def utf8Bytes (s : String) : List Nat := (s.data.map charUtf8).flatten

/-- Lowercase hexadecimal digit (`"0123456789abcdef"[n]`). -/
def hexDigit (n : Nat) : Char :=
  Char.ofNat (if n < 10 then 48 + n else 87 + n)

/-- Lowercase hex encoding of a byte list (encoding/hex `EncodeToString`). -/
def hexEncode (bytes : List Nat) : String :=
  String.mk ((bytes.map (fun b => [hexDigit ((b >>> 4) &&& 15), hexDigit (b &&& 15)])).flatten)

/-- `generateQuestionID` from the usecase: the Go code computes
`uniqueness = fmt.Sprintf("%d-%x", time.Now().UnixNano(), randomBytes)`
freshly on every call; here the salt is an explicit argument, so one Go
call corresponds to one Lean application at that call's salt. -/
def generateQuestionID (word difficulty uniqueness : String) : String :=
  "q-" ++ hexEncode ((sha256 (utf8Bytes (word ++ "|" ++ difficulty ++ "|" ++ uniqueness))).take 8)

/-! ## Data model

Row types mirror `internal/entity` (`gorm` entities); the response types
mirror `internal/delivery/http/entity` as used by the usecase.  A stored
`Options`/serialised-JSON column is modelled by its parse result:
`Option (List String)`, `none` standing for a string `json.Unmarshal`
rejects. -/

/-- `internal/entity.GeneratedQuestion` (table `generated_questions`). -/
structure DBGeneratedQuestion where
  QuestionID : String
  TemplateID : String
  Difficulty : String
  QuestionText : String
  TargetLetterPair : String
  TargetLetter : String
  Options : Option (List String)
  CorrectAnswer : String
  GeneratedBy : String
  UsageCount : Nat
  deriving DecidableEq, Repr

/-- `internal/entity.UserAnswer` (table `user_answers`).  The list order of
`DB.userAnswers` is insertion order (`gorm` primary-key order). -/
structure DBUserAnswer where
  UserID : String
  SessionID : String
  QuestionID : String
  UserAnswer : String
  CorrectAnswer : String
  IsCorrect : Bool
  QuestionText : String
  Difficulty : String
  deriving DecidableEq, Repr

/-- `internal/entity.SessionAnalysisCache` (table `session_analysis_cache`).
The two serialised-JSON columns are modelled by their parse results. -/
structure DBSessionAnalysisCache where
  SessionID : String
  TotalQuestions : Nat
  CorrectAnswers : Nat
  WrongAnswers : Nat
  AccuracyRate : String
  OverallValue : String
  AIAnalysis : String
  Recommendations : String
  ErrorPatternsJSON : List (String × Nat × Nat × String)
  DifficultyStatsJSON : List (String × Nat)
  deriving DecidableEq, Repr

/-- `internal/entity.ChatMessage` (table `chat_messages`).  The list order
of `DB.chats` is `created_at` order (`autoCreateTime`, append-only). -/
structure DBChatMessage where
  SessionID : String
  Role : String
  Message : String
  deriving DecidableEq, Repr

/-- The relational store reached through `dyslexiaQuestionRepository`.
Rows stand for live rows: `gorm` soft-deleted rows, which every query
filters out, are simply absent. -/
structure DB where
  generated : List DBGeneratedQuestion
  userAnswers : List DBUserAnswer
  chats : List DBChatMessage
  analysisCache : List DBSessionAnalysisCache
  deriving DecidableEq, Repr

/-- Response entity `entity.GeneratedQuestion` returned by `Generate`. -/
structure GQ where
  ID : String
  Difficulty : String
  QuestionText : String
  TargetLetterPair : String
  TargetLetter : String
  Options : List String
  Answer : String
  deriving DecidableEq, Repr

/-- `entity.SubmitAnswerRequest`. -/
structure SubmitAnswerRequest where
  UserID : String
  SessionID : String
  QuestionID : String
  Answer : String
  deriving DecidableEq, Repr

/-- `entity.SubmitAnswerResponse`. -/
structure SubmitAnswerResponse where
  IsCorrect : Bool
  UserAnswer : String
  CorrectAnswer : String
  QuestionID : String
  SessionID : String
  deriving DecidableEq, Repr

/-- `entity.ErrorPattern` of the session report. -/
structure ErrorPattern where
  LetterPair : String
  ErrorCount : Nat
  TotalCount : Nat
  ErrorRate : String
  deriving DecidableEq, Repr

/-- `entity.SessionReport` returned by `GenerateSessionReport`.  The field
`AIAnalysys` keeps the source's spelling. -/
structure SessionReport where
  SessionID : String
  TotalQuestions : Nat
  CorrectAnswers : Nat
  WrongAnswers : Nat
  AccuracyRate : String
  OverallValue : String
  ErrorPatterns : List ErrorPattern
  DifficultyStats : List (String × Nat)
  AIAnalysys : String
  Recommendations : String
  deriving DecidableEq, Repr

/-! ## Repository (`dyslexia_question_repository.go`) as pure functions

`ORDER BY RANDOM()` is modelled by the order of `DB.generated` itself:
quantifying over all `DB` values quantifies over all random orders. -/

/-- `FindGeneratedByQuestionID`: `WHERE question_id = ? ... First`. -/
def FindGeneratedByQuestionID (db : DB) (questionID : String) :
    Option DBGeneratedQuestion :=
  db.generated.find? (fun q => q.QuestionID == questionID)

/-- `FindRandomGeneratedByDifficulty`: `WHERE difficulty = ?`, plus
`question_id NOT IN ?` when `excludeIDs` is non-empty, random order
(modelled by row order), `LIMIT limit`. -/
def FindRandomGeneratedByDifficulty (db : DB) (difficulty : String)
    (limit : Nat) (excludeIDs : List String) : List DBGeneratedQuestion :=
  let base := db.generated.filter (fun q => q.Difficulty == difficulty)
  let filtered :=
    if excludeIDs.isEmpty then base
    else base.filter (fun q => !(excludeIDs.contains q.QuestionID))
  filtered.take limit

/-- `IncrementUsageCount`: `usage_count = usage_count + 1` on the row. -/
def IncrementUsageCount (db : DB) (questionID : String) : DB :=
  { db with
    generated := db.generated.map (fun q =>
      if q.QuestionID == questionID then
        { q with UsageCount := q.UsageCount + 1 }
      else q) }

/-- `CreateGenerated`: `db.Create`. -/
def CreateGenerated (db : DB) (q : DBGeneratedQuestion) : DB :=
  { db with generated := db.generated ++ [q] }

/-- `CreateUserAnswer`: `db.Create`. -/
def CreateUserAnswer (db : DB) (a : DBUserAnswer) : DB :=
  { db with userAnswers := db.userAnswers ++ [a] }

/-- `FindUserAnswersBySessionID`: `WHERE session_id = ?` (the
`answered_at DESC` ordering is irrelevant to the properties proved here,
which only use the result as a set or count it). -/
def FindUserAnswersBySessionID (db : DB) (sessionID : String) :
    List DBUserAnswer :=
  db.userAnswers.filter (fun a => a.SessionID == sessionID)

/-- `FindExistingAnswer`: `WHERE user_id = ? AND session_id = ? AND
question_id = ? ... First`. -/
def FindExistingAnswer (db : DB) (userID sessionID questionID : String) :
    Option DBUserAnswer :=
  db.userAnswers.find? (fun a =>
    a.UserID == userID && a.SessionID == sessionID && a.QuestionID == questionID)

/-- `CreateOrUpdateAnalysisCache`: upsert keyed on `session_id`. -/
def CreateOrUpdateAnalysisCache (db : DB) (c : DBSessionAnalysisCache) : DB :=
  if db.analysisCache.any (fun e => e.SessionID == c.SessionID) then
    { db with
      analysisCache := db.analysisCache.map (fun e =>
        if e.SessionID == c.SessionID then c else e) }
  else { db with analysisCache := db.analysisCache ++ [c] }

/-- `FindAnalysisCacheBySessionID`: `WHERE session_id = ? ... First`. -/
def FindAnalysisCacheBySessionID (db : DB) (sessionID : String) :
    Option DBSessionAnalysisCache :=
  db.analysisCache.find? (fun c => c.SessionID == sessionID)

/-- `CreateChatMessage`: `db.Create` (`created_at` = append position). -/
def CreateChatMessage (db : DB) (m : DBChatMessage) : DB :=
  { db with chats := db.chats ++ [m] }

/-- `FindChatMessagesBySessionID`: `WHERE session_id = ? ORDER BY
created_at ASC`, then `LIMIT limit` when `limit > 0`.  Note the `ASC`
order puts the limit on the *oldest* messages. -/
def FindChatMessagesBySessionID (db : DB) (sessionID : String) (limit : Nat) :
    List DBChatMessage :=
  let msgs := db.chats.filter (fun m => m.SessionID == sessionID)
  if 0 < limit then msgs.take limit else msgs

/-! ## Shuffling (`shuffleOptions`)

The Go code copies the slice and runs a Fisher–Yates loop with
`j := u.rnd.Intn(i+1)`.  The generator draws are an explicit list `js`;
draw `i` is reduced `% (i+1)` exactly as `Intn(i+1)` bounds it.  Operating
on an immutable list is the copy the Go code makes, so the caller's list
is untouched by construction. -/

/-- Swap the elements at positions `i` and `j` (identity out of bounds;
the shuffle only uses it in bounds). -/
def listSwap {α : Type} (l : List α) (i j : Nat) : List α :=
  match l[i]?, l[j]? with
  | some a, some b => (l.set i b).set j a
  | _, _ => l

/-- The Fisher–Yates loop `for i := len-1; i > 0; i--`. -/
def fyLoop {α : Type} (l : List α) : Nat → List Nat → List α
  | 0, _ => l
  | i + 1, js => fyLoop (listSwap l (i + 1) (js.headD 0 % (i + 2))) i js.tail

/-- `shuffleOptions` from the usecase. -/
def shuffleOptions (options : List String) (js : List Nat) : List String :=
  fyLoop options (options.length - 1) js

/-! ## Option deduplication and per-slot AI generation -/

/-- The option loop of `deduplicateOptions`: keep a non-empty option not
seen before, tracking the seen set. -/
def dedupOptsGo : List String → List String → List String
  | [], _ => []
  | opt :: rest, seen =>
    if opt != "" && !(seen.contains opt) then opt :: dedupOptsGo rest (opt :: seen)
    else dedupOptsGo rest seen

/-- `deduplicateOptions`: the correct answer first (when non-empty, and the
initial seen set is empty so its membership test is vacuous), then the
remaining unique non-empty options in order. -/
def deduplicateOptions (options : List String) (correctAnswer : String) :
    List String :=
  if correctAnswer != "" then correctAnswer :: dedupOptsGo options [correctAnswer]
  else dedupOptsGo options []

/-- The fixed in-memory fallback word list per letter pair (map lookup with
the `b-d` row as the `ok == false` default). -/
def fallbackWords (letterPair : String) : List String :=
  if letterPair == "b-d" then ["bola", "dola", "bela", "dela"]
  else if letterPair == "p-q" then ["pagi", "qagi", "patu", "qatu"]
  else if letterPair == "m-w" then ["maju", "waju", "mata", "wata"]
  else if letterPair == "n-u" then ["nasi", "uasi", "nama", "uama"]
  else if letterPair == "m-n" then ["makan", "nakan", "main", "nain"]
  else ["bola", "dola", "bela", "dela"]

/-- `createFallbackQuestionWithShuffle`; `salt` is the uniqueness string of
this call's `generateQuestionID`, `js` this call's shuffle draws. -/
def createFallbackQuestionWithShuffle (difficulty letterPair : String)
    (includeAnswer : Bool) (salt : String) (js : List Nat) : GQ :=
  { ID := generateQuestionID ((fallbackWords letterPair).headD "") difficulty salt
    Difficulty := difficulty
    QuestionText := "Dengarkan kata berikut: "
    TargetLetterPair := letterPair
    TargetLetter := ((letterPair.splitOn "-").headD "")
    Options := shuffleOptions (fallbackWords letterPair) js
    Answer := if includeAnswer then ((fallbackWords letterPair).headD "") else "" }

/-- `geminiQuestionJSON`, the parsed shape of a successful AI reply. -/
structure GeminiQuestionJSON where
  CorrectAnswer : String
  Options : List String
  deriving DecidableEq, Repr

/-- Everything one generation slot observes from its environment: the
random letter-pair index, the outcome of the Gemini call (`none` covers an
unconfigured client, a transport error and unparsable output), the
uniqueness salts of the two possible `generateQuestionID` calls and the
random draws of the two possible shuffles. -/
structure SlotOracle where
  pairIdx : Nat
  ai : Option GeminiQuestionJSON
  aiSalt : String
  aiShuffle : List Nat
  fbSalt : String
  fbShuffle : List Nat

/-- `generateFromAI`: reject on failed call/parse, fewer than 2 raw
options, empty correct answer, or fewer than 2 options after
deduplication; otherwise shuffle and build the question. -/
def generateFromAI (difficulty letterPair : String) (includeAnswer : Bool)
    (o : SlotOracle) : Option GQ :=
  match o.ai with
  | none => none
  | some parsed =>
    if parsed.Options.length < 2 || parsed.CorrectAnswer == "" then none
    else if (deduplicateOptions parsed.Options parsed.CorrectAnswer).length < 2 then none
    else some
      { ID := generateQuestionID parsed.CorrectAnswer difficulty o.aiSalt
        Difficulty := difficulty
        QuestionText := "Dengarkan kata berikut: "
        TargetLetterPair := letterPair
        TargetLetter := ((letterPair.splitOn "-").headD "")
        Options := shuffleOptions (deduplicateOptions parsed.Options parsed.CorrectAnswer) o.aiShuffle
        Answer := if includeAnswer then parsed.CorrectAnswer else "" }

/-- One slot of `Generate`'s `useAI = true` fan-out (the goroutine body):
the produced question, plus the argument of the asynchronous
`saveGeneratedToDB` call when AI generation succeeded.  `Generate` always
passes `includeAnswer = true` here and strips afterwards. -/
def slotGenerate (disableAI : Bool) (difficulty letterPair : String)
    (o : SlotOracle) : GQ × Option (GQ × String) :=
  if disableAI then
    (createFallbackQuestionWithShuffle difficulty letterPair true o.fbSalt o.fbShuffle, none)
  else
    match generateFromAI difficulty letterPair true o with
    | none =>
      (createFallbackQuestionWithShuffle difficulty letterPair true o.fbSalt o.fbShuffle, none)
    | some q => (q, some (q, letterPair))

/-! ## Go `strings` helpers

`strings.TrimSpace`, `strings.ToLower` and `strings.ToUpper` are modelled
directly on the character list (they agree with Go on the ASCII inputs
this system handles; Go additionally folds non-ASCII case and trims
non-ASCII Unicode spaces). -/

/-- ASCII `unicode.IsSpace`. -/
def isSpaceGo (c : Char) : Bool :=
  c == ' ' || c == '\t' || c == '\n' || c == '\x0b' || c == '\x0c' || c == '\r'

/-- `strings.TrimSpace`. -/
def trimGo (s : String) : String :=
  String.mk (((s.data.dropWhile isSpaceGo).reverse.dropWhile isSpaceGo).reverse)

/-- `strings.ToLower`. -/
def toLowerGo (s : String) : String := String.mk (s.data.map Char.toLower)

/-- `strings.ToUpper`. -/
def toUpperGo (s : String) : String := String.mk (s.data.map Char.toUpper)

/-! ## `Generate` orchestration -/

/-- The fixed vocabulary of confusable letter pairs. -/
def allLetterPairs : List String := ["b-d", "p-q", "m-w", "n-u", "m-n"]

/-- The pattern-validation loop of `Generate`: trim + lowercase, skip empty
entries, reject the first entry outside `allLetterPairs`. -/
def validatePatternsLoop : List String → Except String (List String)
  | [] => .ok []
  | p :: rest =>
    if (toLowerGo (trimGo p)) == "" then validatePatternsLoop rest
    else if allLetterPairs.contains (toLowerGo (trimGo p)) then
      match validatePatternsLoop rest with
      | .ok v => .ok ((toLowerGo (trimGo p)) :: v)
      | .error e => .error e
    else .error ("invalid pattern: " ++ (toLowerGo (trimGo p)) ++ " (allowed: b-d, p-q, m-w, n-u, m-n)")

/-- The allowed letter pairs of one `Generate` call: all pairs when no
patterns are given (or all given entries were blank), otherwise the
validated patterns. -/
def resolveLetterPairs (patterns : List String) : Except String (List String) :=
  if patterns.isEmpty then .ok allLetterPairs
  else
    match validatePatternsLoop patterns with
    | .error e => .error e
    | .ok validated => .ok (if validated.isEmpty then allLetterPairs else validated)

/-- `count` clamping at the top of `Generate`: `count <= 0` becomes 1,
`count > 10` becomes 10. -/
def clampCount (count : Int) : Nat :=
  if count ≤ 0 then 1 else if 10 < count then 10 else count.toNat

/-- Difficulty defaulting at the top of `Generate`. -/
def defaultDifficulty (d : String) : String := if d == "" then "easy" else d

/-- The session's already-answered question IDs, gathered only when a
session ID was supplied. -/
def excludedQuestionIDs (db : DB) (sessionID : String) : List String :=
  if sessionID == "" then []
  else (FindUserAnswersBySessionID db sessionID).map (fun a => a.QuestionID)

/-- The row-conversion loop of `generateFromDBCache`: skip an ID seen in
this batch, skip a row whose stored options fail to parse, shuffle the
options (one draw list per emitted row) and copy the answer only when
requested. -/
def cacheConvertLoop (includeAnswer : Bool) :
    List DBGeneratedQuestion → List String → List (List Nat) → List GQ
  | [], _, _ => []
  | dbQ :: rest, seen, shuffles =>
    if seen.contains dbQ.QuestionID then cacheConvertLoop includeAnswer rest seen shuffles
    else
      match dbQ.Options with
      | none => cacheConvertLoop includeAnswer rest seen shuffles
      | some opts =>
        { ID := dbQ.QuestionID
          Difficulty := dbQ.Difficulty
          QuestionText := dbQ.QuestionText
          TargetLetterPair := dbQ.TargetLetterPair
          TargetLetter := dbQ.TargetLetter
          Options := shuffleOptions opts (shuffles.headD [])
          Answer := if includeAnswer then dbQ.CorrectAnswer else "" }
          :: cacheConvertLoop includeAnswer rest (dbQ.QuestionID :: seen) shuffles.tail

/-- `generateFromDBCache`.  The Go code formats the patterns into a
`target_letter_pair IN (...)` SQL fragment collected into a local
`filters` slice that is never handed to the repository query — mirrored
here by the unused `_filters`; only difficulty and the exclusion list
reach `FindRandomGeneratedByDifficulty`. -/
def generateFromDBCache (db : DB) (difficulty : String) (count : Nat)
    (includeAnswer : Bool) (patterns : List String) (excludeIDs : List String)
    (shuffles : List (List Nat)) : Except String (List GQ) :=
  let _filters : List String :=
    if patterns.isEmpty then []
    else ["target_letter_pair IN (" ++
      String.intercalate "," (patterns.map (fun p => "'" ++ p ++ "'")) ++ ")"]
  let dbQuestions := FindRandomGeneratedByDifficulty db difficulty count excludeIDs
  if dbQuestions.isEmpty then
    .error ("no cached questions found for difficulty=" ++ difficulty)
  else .ok (cacheConvertLoop includeAnswer dbQuestions [] shuffles)

/-- `Generate` with `useAI = false`: clamp/default the inputs, collect the
session's answered IDs, validate the patterns, then serve from the cache. -/
def GenerateCache (db : DB) (difficulty : String) (count : Int)
    (includeAnswer : Bool) (patterns : List String) (sessionID : String)
    (shuffles : List (List Nat)) : Except String (List GQ) :=
  match resolveLetterPairs patterns with
  | .error e => .error e
  | .ok letterPairs =>
    generateFromDBCache db (defaultDifficulty difficulty) (clampCount count)
      includeAnswer letterPairs (excludedQuestionIDs db sessionID) shuffles

/-- The batch-deduplication loop of `Generate`: keep a question whose ID is
not in the seen set (which starts as the session's answered IDs), and
return the final seen set for the replacement phase. -/
def dedupBatchLoop : List GQ → List String → List GQ × List String
  | [], seen => ([], seen)
  | q :: rest, seen =>
    if seen.contains q.ID then dedupBatchLoop rest seen
    else
      let r := dedupBatchLoop rest (q.ID :: seen)
      (q :: r.1, r.2)

/-- The bounded replacement loop (`for i := 0; i < shortage && i < 5`):
each iteration generates one candidate (launching its asynchronous save on
AI success before any uniqueness check), keeps it only when unseen, and
breaks once `count` questions are collected.  `fuel = min shortage 5`. -/
def replacementLoop (repls : Nat → SlotOracle) (letterPairs : List String)
    (disableAI : Bool) (difficulty : String) :
    Nat → Nat → List GQ → List String → Nat → List GQ × List (GQ × String)
  | 0, _, acc, _, _ => (acc, [])
  | fuel + 1, i, acc, seen, cnt =>
    let qs := slotGenerate disableAI difficulty
      (letterPairs.getD ((repls i).pairIdx % letterPairs.length) "") (repls i)
    let step : List GQ × List String :=
      if seen.contains qs.1.ID then (acc, seen) else (acc ++ [qs.1], qs.1.ID :: seen)
    if cnt ≤ step.1.length then (step.1, qs.2.toList)
    else
      let r := replacementLoop repls letterPairs disableAI difficulty fuel (i + 1) step.1 step.2 cnt
      (r.1, qs.2.toList ++ r.2)

/-- `Generate` with `useAI = true`: validate, fan out one slot per
requested question (slot `i` observing `slots i`), deduplicate against the
session's answered IDs, run the bounded replacement phase on a shortage,
and strip answers unless requested.  Returns the response list together
with the arguments of all asynchronous `saveGeneratedToDB` calls launched
during the request. -/
def GenerateAI (db : DB) (difficulty : String) (count : Int)
    (includeAnswer : Bool) (patterns : List String) (sessionID : String)
    (disableAI : Bool) (slots : Nat → SlotOracle) (repls : Nat → SlotOracle) :
    Except String (List GQ × List (GQ × String)) :=
  match resolveLetterPairs patterns with
  | .error e => .error e
  | .ok letterPairs =>
    let d := defaultDifficulty difficulty
    let cnt := clampCount count
    let slotResults := (List.range cnt).map (fun i =>
      slotGenerate disableAI d
        (letterPairs.getD ((slots i).pairIdx % letterPairs.length) "") (slots i))
    let batch := dedupBatchLoop (slotResults.map Prod.fst)
      (excludedQuestionIDs db sessionID)
    let afterRepl :=
      if batch.1.length < cnt then
        replacementLoop repls letterPairs disableAI d
          (min (cnt - batch.1.length) 5) 0 batch.1 batch.2 cnt
      else (batch.1, [])
    .ok (if includeAnswer then afterRepl.1
         else afterRepl.1.map (fun q => { q with Answer := "" }),
         slotResults.filterMap Prod.snd ++ afterRepl.2)

/-! ## Persistence of generated questions (`saveGeneratedToDB`) -/

/-- The `internal/entity.GeneratedQuestion` row `saveGeneratedToDB` builds
(options marshalled to JSON, correct answer taken from the question's
answer field, source tag `"ai"`, usage count 1). -/
def mkGeneratedRow (q : GQ) (letterPair : String) : DBGeneratedQuestion :=
  { QuestionID := q.ID
    TemplateID := letterPair
    Difficulty := q.Difficulty
    QuestionText := q.QuestionText
    TargetLetterPair := q.TargetLetterPair
    TargetLetter := q.TargetLetter
    Options := some q.Options
    CorrectAnswer := q.Answer
    GeneratedBy := "ai"
    UsageCount := 1 }

/-- `saveGeneratedToDB`: lookup-before-insert — an existing row with the
same question ID only gets its usage count bumped; otherwise the new row
is inserted. -/
def saveGeneratedToDB (db : DB) (q : GQ) (letterPair : String) : DB :=
  match FindGeneratedByQuestionID db q.ID with
  | some _ => IncrementUsageCount db q.ID
  | none => CreateGenerated db (mkGeneratedRow q letterPair)

/-! ## `SubmitAnswer` -/

/-- `SubmitAnswer`: return the stored answer untouched when the
(user, session, question) triple already has one; otherwise grade by
case-insensitive, whitespace-trimmed comparison against the stored correct
answer, persist, and respond. -/
def SubmitAnswer (db : DB) (req : SubmitAnswerRequest) :
    Except String SubmitAnswerResponse × DB :=
  match FindExistingAnswer db req.UserID req.SessionID req.QuestionID with
  | some existing =>
    (.ok { IsCorrect := existing.IsCorrect
           UserAnswer := existing.UserAnswer
           CorrectAnswer := existing.CorrectAnswer
           QuestionID := existing.QuestionID
           SessionID := existing.SessionID }, db)
  | none =>
    match FindGeneratedByQuestionID db req.QuestionID with
    | none => (.error "question not found", db)
    | some generatedQ =>
      let isCorrect := trimGo (toUpperGo req.Answer) == trimGo (toUpperGo generatedQ.CorrectAnswer)
      (.ok { IsCorrect := isCorrect
             UserAnswer := req.Answer
             CorrectAnswer := generatedQ.CorrectAnswer
             QuestionID := req.QuestionID
             SessionID := req.SessionID },
       CreateUserAnswer db
         { UserID := req.UserID
           SessionID := req.SessionID
           QuestionID := req.QuestionID
           UserAnswer := req.Answer
           CorrectAnswer := generatedQ.CorrectAnswer
           IsCorrect := isCorrect
           QuestionText := generatedQ.QuestionText
           Difficulty := generatedQ.Difficulty })

/-! ## Session report (`GenerateSessionReport`) and AI analysis retry -/

/-- `countCorrect` from the usecase. -/
def countCorrect (answers : List DBUserAnswer) : Nat :=
  (answers.filter (fun a => a.IsCorrect)).length

/-- One observable outcome of a `GenerateText` call in the analysis retry
loop: transport error, output `json.Unmarshal` rejects, or a parsed
`{analysis, recommendations, overall_value}` triple. -/
inductive LLMOutcome where
  | err : LLMOutcome
  | badJSON : LLMOutcome
  | ok (analysis recommendations overallValue : String) : LLMOutcome

/-- The fixed fallback substituted when all retries hit transport errors. -/
def analysisFallbackTransport : String × String × String :=
  ("Sesi latihan telah selesai. Terus berlatih untuk meningkatkan kemampuan membaca.",
   "Fokus pada huruf-huruf yang masih sering tertukar.",
   "baik")

/-- The fixed fallback substituted when all retries hit parse failures
(also the unreachable post-loop return of the Go function). -/
def analysisFallbackParse : String × String × String :=
  ("Sesi latihan telah selesai. Anak menunjukkan kemajuan yang baik.",
   "Terus berlatih secara konsisten untuk hasil yang lebih baik.",
   "baik")

/-- The retry loop of `generateAIAnalysis`
(`for attempt := 1; attempt <= 3; attempt++`), with `outcomes attempt` the
result of the attempt's `GenerateText` call.  Besides the analysis triple
it returns the number of LLM calls made and the list of back-off sleeps
(milliseconds) taken between attempts. -/
def analysisLoop (outcomes : Nat → LLMOutcome) :
    Nat → Nat → (String × String × String) × Nat × List Nat
  | 0, _ => (analysisFallbackParse, 0, [])
  | fuel + 1, attempt =>
    match outcomes attempt with
    | .ok a r v => ((a, r, v), 1, [])
    | .err =>
      if attempt < 3 then
        let rest := analysisLoop outcomes fuel (attempt + 1)
        (rest.1, rest.2.1 + 1, (attempt * 500) :: rest.2.2)
      else (analysisFallbackTransport, 1, [])
    | .badJSON =>
      if attempt < 3 then
        let rest := analysisLoop outcomes fuel (attempt + 1)
        (rest.1, rest.2.1 + 1, (attempt * 500) :: rest.2.2)
      else (analysisFallbackParse, 1, [])

/-- `generateAIAnalysis`: the no-client early return, otherwise the
3-attempt retry loop. -/
def generateAIAnalysis (geminiConfigured : Bool) (outcomes : Nat → LLMOutcome) :
    (String × String × String) × Nat × List Nat :=
  if geminiConfigured then analysisLoop outcomes 3 1
  else (("AI analysis not available", "Practice more to improve", "good"), 0, [])

/-- `fmt.Sprintf("%.1f%%", float64 num / float64 den * 100)`: the
percentage to one decimal place.  The Go code rounds a binary `float64`;
this rounds the exact rational to the nearest tenth, which agrees on all
inputs whose tenth is not a floating-point tie artifact. -/
def formatPct (num den : Nat) : String :=
  toString ((num * 1000 + den / 2) / den / 10) ++ "." ++
    toString ((num * 1000 + den / 2) / den % 10) ++ "%"

/-- The per-difficulty counter (`difficultyStats[answer.Difficulty]++`),
as an association list in first-appearance order. -/
def bumpAssoc (l : List (String × Nat)) (k : String) : List (String × Nat) :=
  if l.any (fun p => p.1 == k) then
    l.map (fun p => if p.1 == k then (p.1, p.2 + 1) else p)
  else l ++ [(k, 1)]

/-- The per-letter-pair `(errors, total)` counter of the report loop:
each answer is joined back to its generated question; rows missing or with
a blank pair are skipped.  Go iterates a map when rendering, so only the
multiset of entries is meaningful; first-appearance order is used here. -/
def letterPairStats (db : DB) (answers : List DBUserAnswer) :
    List (String × Nat × Nat) :=
  answers.foldl (fun acc a =>
    match FindGeneratedByQuestionID db a.QuestionID with
    | none => acc
    | some g =>
      if g.TargetLetterPair == "" then acc
      else if acc.any (fun p => p.1 == g.TargetLetterPair) then
        acc.map (fun p =>
          if p.1 == g.TargetLetterPair then
            (p.1, p.2.1 + (if a.IsCorrect then 0 else 1), p.2.2 + 1)
          else p)
      else acc ++ [(g.TargetLetterPair, (if a.IsCorrect then 0 else 1), 1)]) []

/-- The `ErrorPattern` list built from the per-pair stats (`total > 0`
always holds for an entry that exists). -/
def buildErrorPatterns (stats : List (String × Nat × Nat)) : List ErrorPattern :=
  stats.filterMap (fun p =>
    if 0 < p.2.2 then
      some { LetterPair := p.1, ErrorCount := p.2.1, TotalCount := p.2.2,
             ErrorRate := formatPct p.2.1 p.2.2 }
    else none)

/-- The `SessionAnalysisCache` row `saveAnalysisCache` upserts. -/
def mkAnalysisCacheRow (report : SessionReport) : DBSessionAnalysisCache :=
  { SessionID := report.SessionID
    TotalQuestions := report.TotalQuestions
    CorrectAnswers := report.CorrectAnswers
    WrongAnswers := report.WrongAnswers
    AccuracyRate := report.AccuracyRate
    OverallValue := report.OverallValue
    AIAnalysis := report.AIAnalysys
    Recommendations := report.Recommendations
    ErrorPatternsJSON := report.ErrorPatterns.map (fun p =>
      (p.LetterPair, p.ErrorCount, p.TotalCount, p.ErrorRate))
    DifficultyStatsJSON := report.DifficultyStats }

/-- `saveAnalysisCache`. -/
def saveAnalysisCache (db : DB) (report : SessionReport) : DB :=
  CreateOrUpdateAnalysisCache db (mkAnalysisCacheRow report)

/-- The assistant feedback message `saveFeedbackToChat` composes. -/
def feedbackMessage (analysis recommendations : String) : String :=
  "**📊 Hasil Analisis Ujian Kamu**\n\n" ++ analysis ++
    "\n\n**💡 Rekomendasi:**\n" ++ recommendations

/-- `saveFeedbackToChat`: fetch the session's chat messages with `LIMIT 1`
(oldest first, since the query orders by `created_at ASC`) and skip the
insert only when that first message exists and has role `assistant`. -/
def saveFeedbackToChat (db : DB) (sessionID analysis recommendations : String) : DB :=
  match FindChatMessagesBySessionID db sessionID 1 with
  | m :: _ =>
    if m.Role == "assistant" then db
    else CreateChatMessage db
      { SessionID := sessionID, Role := "assistant",
        Message := feedbackMessage analysis recommendations }
  | [] => CreateChatMessage db
      { SessionID := sessionID, Role := "assistant",
        Message := feedbackMessage analysis recommendations }

/-- `GenerateSessionReport`: load the session's answers (error when none),
compute the statistics, run the AI analysis (with its retry loop), then
persist the analysis cache and the chat feedback.  Returns the report and
the updated store. -/
def GenerateSessionReport (db : DB) (sessionID : String)
    (geminiConfigured : Bool) (outcomes : Nat → LLMOutcome) :
    Except String SessionReport × DB :=
  let answers := FindUserAnswersBySessionID db sessionID
  if answers.isEmpty then (.error "no answers found for session", db)
  else
    let analysis := (generateAIAnalysis geminiConfigured outcomes).1
    let report : SessionReport :=
      { SessionID := sessionID
        TotalQuestions := answers.length
        CorrectAnswers := countCorrect answers
        WrongAnswers := (answers.filter (fun a => !a.IsCorrect)).length
        AccuracyRate := formatPct (countCorrect answers) answers.length
        OverallValue := analysis.2.2
        ErrorPatterns := buildErrorPatterns (letterPairStats db answers)
        DifficultyStats := answers.foldl (fun acc a => bumpAssoc acc a.Difficulty) []
        AIAnalysys := analysis.1
        Recommendations := analysis.2.1 }
    (.ok report,
     saveFeedbackToChat (saveAnalysisCache db report) sessionID analysis.1 analysis.2.1)

/-! ## Chat context (`ChatWithBot`, steps 3–4 of the Go function) -/

/-- The conversation context `ChatWithBot` sends to the LLM: the system
prompt, then the session's chat history fetched with
`FindChatMessagesBySessionID(db, sessionID, 10)` (each message mapped to
role `user` or `assistant`), then the new user message.  Pairs are
`(role, content)`. -/
def buildChatMessages (db : DB) (sessionID systemContext userMessage : String) :
    List (String × String) :=
  (("system", systemContext) ::
    (FindChatMessagesBySessionID db sessionID 10).map (fun m =>
      ((if m.Role == "user" then "user" else "assistant"), m.Message))) ++
    [("user", userMessage)]

/-! ## Concrete stores, oracles and hash literals used by the claim proofs -/

/-- Session state for the C9 counterexample: the session's oldest chat
message is from the user, and an assistant message exists after it. -/
def dbC9 : DB :=
  { generated := []
    userAnswers := []
    chats := [{ SessionID := "s", Role := "user", Message := "halo" },
              { SessionID := "s", Role := "assistant", Message := "hai" }]
    analysisCache := [] }

/-- Witness states for the amended C9 guard. -/
def dbC9skip : DB :=
  { generated := []
    userAnswers := []
    chats := [{ SessionID := "s", Role := "assistant", Message := "fb" }]
    analysisCache := [] }

def dbEmpty : DB :=
  { generated := [], userAnswers := [], chats := [], analysisCache := [] }

/-- Session state for C6: eleven chat messages `m1 … m11` for session `s`,
in creation order. -/
def dbC6 : DB :=
  { generated := []
    userAnswers := []
    chats := [{ SessionID := "s", Role := "user", Message := "m1" },
              { SessionID := "s", Role := "assistant", Message := "m2" },
              { SessionID := "s", Role := "user", Message := "m3" },
              { SessionID := "s", Role := "assistant", Message := "m4" },
              { SessionID := "s", Role := "user", Message := "m5" },
              { SessionID := "s", Role := "assistant", Message := "m6" },
              { SessionID := "s", Role := "user", Message := "m7" },
              { SessionID := "s", Role := "assistant", Message := "m8" },
              { SessionID := "s", Role := "user", Message := "m9" },
              { SessionID := "s", Role := "assistant", Message := "m10" },
              { SessionID := "s", Role := "user", Message := "m11" }]
    analysisCache := [] }

/-- Cache state for C1: a single cached easy question whose target letter
pair is `m-n`. -/
def dbC1 : DB :=
  { generated := [{ QuestionID := "q-mn-1"
                    TemplateID := "m-n"
                    Difficulty := "easy"
                    QuestionText := "Dengarkan kata berikut: "
                    TargetLetterPair := "m-n"
                    TargetLetter := "m"
                    Options := some ["makan", "nakan", "main", "nain"]
                    CorrectAnswer := "makan"
                    GeneratedBy := "ai"
                    UsageCount := 1 }]
    userAnswers := []
    chats := []
    analysisCache := [] }

/-- Slot oracle for the C4 witness: the AI replied with a duplicated
option list, so only one unique option remains. -/
def c4oracle : SlotOracle :=
  { pairIdx := 0
    ai := some { CorrectAnswer := "bola", Options := ["bola", "bola"] }
    aiSalt := "s1"
    aiShuffle := []
    fbSalt := "s2"
    fbShuffle := [3, 2, 1] }

/-- Outcome stream for the C5 witness: a JSON parse failure on the first
attempt, success on the second. -/
def c5parseThenOk : Nat → LLMOutcome :=
  fun i => if i ≤ 1 then .badJSON else .ok "A" "R" "baik"

/-- Outcome stream for the C5 witness: a transport error, then a parse
failure, then success. -/
def c5errThenParseThenOk : Nat → LLMOutcome :=
  fun i => if i ≤ 1 then .err else if i ≤ 2 then .badJSON else .ok "A" "R" "baik"

/-- Session state for the C5 witness: one answered question. -/
def dbC5 : DB :=
  { generated := []
    userAnswers := [{ UserID := "u", SessionID := "s", QuestionID := "q1",
                      UserAnswer := "bola", CorrectAnswer := "bola",
                      IsCorrect := true, QuestionText := "t", Difficulty := "easy" }]
    chats := []
    analysisCache := [] }

/-- Oracle for the C2/C8 witnesses: slot draws with AI disabled. -/
def c2oracle : SlotOracle :=
  { pairIdx := 0, ai := none, aiSalt := "a", aiShuffle := [],
    fbSalt := "b", fbShuffle := [3, 2, 1] }

/-- Store for the C2 witness: one answer recorded under another session. -/
def dbC2 : DB :=
  { generated := []
    userAnswers := [{ UserID := "u", SessionID := "other", QuestionID := "q-old",
                      UserAnswer := "x", CorrectAnswer := "x", IsCorrect := true,
                      QuestionText := "t", Difficulty := "easy" }]
    chats := []
    analysisCache := [] }

/-- The concrete result of the C2 witness call. -/
def c2pair : List GQ × List (GQ × String) :=
  match GenerateAI dbC2 "easy" 1 true [] "s" true
      (fun _ => c2oracle) (fun _ => c2oracle) with
  | .ok p => p
  | .error _ => ([], [])

/-- Slot oracle for the C8 witness: a successful AI reply. -/
def c8oracle : SlotOracle :=
  { pairIdx := 0
    ai := some { CorrectAnswer := "bola", Options := ["bola", "dola", "bela", "pola"] }
    aiSalt := "salt1"
    aiShuffle := [3, 2, 1]
    fbSalt := "salt2"
    fbShuffle := [] }

/-- The concrete result of the C8 witness call (`includeAnswer = false`,
one slot, AI success). -/
def c8pair : List GQ × List (GQ × String) :=
  match GenerateAI dbEmpty "easy" 1 false [] "s" false
      (fun _ => c8oracle) (fun _ => c8oracle) with
  | .ok p => p
  | .error _ => ([], [])

/-- Row for the C3 amended witness. -/
def c3row : DBGeneratedQuestion :=
  { QuestionID := "q-abc", TemplateID := "b-d", Difficulty := "easy",
    QuestionText := "t", TargetLetterPair := "b-d", TargetLetter := "b",
    Options := some ["bola", "dola"], CorrectAnswer := "bola",
    GeneratedBy := "ai", UsageCount := 1 }

/-- The question whose ID collides with `c3row`. -/
def c3q : GQ :=
  { ID := "q-abc", Difficulty := "easy", QuestionText := "t",
    TargetLetterPair := "b-d", TargetLetter := "b",
    Options := ["bola", "dola"], Answer := "bola" }

/-- The round constants as literals. -/
def sha256KLit : List Nat := [1116352408, 1899447441, 3049323471, 3921009573, 961987163, 1508970993, 2453635748, 2870763221, 3624381080, 310598401, 607225278, 1426881987, 1925078388, 2162078206, 2614888103, 3248222580, 3835390401, 4022224774, 264347078, 604807628, 770255983, 1249150122, 1555081692, 1996064986, 2554220882, 2821834349, 2952996808, 3210313671, 3336571891, 3584528711, 113926993, 338241895, 666307205, 773529912, 1294757372, 1396182291, 1695183700, 1986661051, 2177026350, 2456956037, 2730485921, 2820302411, 3259730800, 3345764771, 3516065817, 3600352804, 4094571909, 275423344, 430227734, 506948616, 659060556, 883997877, 958139571, 1322822218, 1537002063, 1747873779, 1955562222, 2024104815, 2227730452, 2361852424, 2428436474, 2756734187, 3204031479, 3329325298]

/-- The initial state as literals. -/
def sha256H0Lit : List Nat := [1779033703, 3144134277, 1013904242, 2773480762, 1359893119, 2600822924, 528734635, 1541459225]

def qidMsg1 : List Nat := [98, 111, 108, 97, 124, 101, 97, 115, 121, 124, 49, 55, 48, 48, 48, 48, 48, 48, 48, 48, 48, 48, 48, 48, 48, 48, 48, 48, 48, 45, 48, 97, 48, 98, 48, 99, 48, 100]

def qidPad1 : List Nat := [98, 111, 108, 97, 124, 101, 97, 115, 121, 124, 49, 55, 48, 48, 48, 48, 48, 48, 48, 48, 48, 48, 48, 48, 48, 48, 48, 48, 48, 45, 48, 97, 48, 98, 48, 99, 48, 100, 128, 0, 0, 0, 0, 0, 0, 0, 0, 0, 0, 0, 0, 0, 0, 0, 0, 0, 0, 0, 0, 0, 0, 0, 1, 48]

def qidSched1 : List Nat := [1651469409, 2087018867, 2038182199, 808464432, 808464432, 808464432, 808464432, 808267873, 811741283, 811892736, 0, 0, 0, 0, 0, 304, 1140631126, 3937665422, 2883039817, 459710374, 3387011095, 918270482, 2800306023, 1877285009, 3438880002, 192779665, 3514343760, 1113205707, 2071060173, 4151682899, 2765285206, 3253042152, 2143502544, 967104582, 2673030895, 3903338589, 2367933568, 2163675279, 1909003759, 2942618838, 4111543590, 1048901923, 2171132870, 2506348719, 1140415620, 11300413, 1899979251, 4043548113, 3631886372, 1659593144, 1001072301, 3979557394, 1352333107, 2185774935, 331390077, 3410123568, 899138580, 2363176644, 1154443612, 997358324, 2171720239, 3075514293, 1688877494, 1632872388]

def qidS64v1 : List Nat := [1198854556, 201833573, 2686744957, 759493917, 1615400365, 2177125363, 4199337805, 3691227102]

def qidDig1 : List Nat := [177, 126, 248, 3, 199, 111, 106, 234, 220, 147, 108, 239, 210, 148, 234, 87, 177, 87, 96, 44, 28, 201, 180, 127, 25, 208, 168, 248, 55, 228, 116, 247]

def qidMsg2 : List Nat := [98, 111, 108, 97, 124, 101, 97, 115, 121, 124, 49, 55, 48, 48, 48, 48, 48, 48, 48, 48, 48, 48, 48, 48, 48, 48, 48, 48, 49, 45, 48, 97, 48, 98, 48, 99, 48, 100]

def qidPad2 : List Nat := [98, 111, 108, 97, 124, 101, 97, 115, 121, 124, 49, 55, 48, 48, 48, 48, 48, 48, 48, 48, 48, 48, 48, 48, 48, 48, 48, 48, 49, 45, 48, 97, 48, 98, 48, 99, 48, 100, 128, 0, 0, 0, 0, 0, 0, 0, 0, 0, 0, 0, 0, 0, 0, 0, 0, 0, 0, 0, 0, 0, 0, 0, 1, 48]

def qidSched2 : List Nat := [1651469409, 2087018867, 2038182199, 808464432, 808464432, 808464432, 808464432, 825045089, 811741283, 811892736, 0, 0, 0, 0, 0, 304, 1140631126, 3937665422, 2883039817, 459710374, 3387011095, 918270482, 2798339879, 1894062225, 216079479, 193126769, 3374120785, 4134925344, 388779172, 3950329776, 2163497749, 3529756859, 4146603992, 2970501184, 2720787955, 1967194266, 251964410, 3796912455, 2760496196, 1046019175, 3920518243, 2495976079, 1175472977, 3666902654, 1503927575, 4003408354, 3864186763, 3573949426, 3511602818, 3578708011, 3049655536, 1711997272, 1196319970, 2450183640, 1866142447, 2384073273, 323063185, 1319012417, 2635227627, 3655084687, 2064993642, 2799608746, 4218033911, 436031933]

def qidS64v2 : List Nat := [3598343861, 2752431079, 3707010820, 3159650034, 3242349932, 1074946832, 1503542509, 294883140]

def qidDig2 : List Nat := [64, 132, 69, 28, 95, 118, 114, 108, 25, 99, 114, 118, 97, 164, 100, 44, 18, 80, 167, 235, 219, 23, 203, 156, 121, 34, 22, 152, 109, 116, 92, 93]

def qidMsg3 : List Nat := [97, 98, 99]

def qidPad3 : List Nat := [97, 98, 99, 128, 0, 0, 0, 0, 0, 0, 0, 0, 0, 0, 0, 0, 0, 0, 0, 0, 0, 0, 0, 0, 0, 0, 0, 0, 0, 0, 0, 0, 0, 0, 0, 0, 0, 0, 0, 0, 0, 0, 0, 0, 0, 0, 0, 0, 0, 0, 0, 0, 0, 0, 0, 0, 0, 0, 0, 0, 0, 0, 0, 24]

def qidSched3 : List Nat := [1633837952, 0, 0, 0, 0, 0, 0, 0, 0, 0, 0, 0, 0, 0, 0, 24, 1633837952, 983040, 2108187653, 1610613702, 1050508152, 25426944, 316456923, 3806512014, 3357629466, 3073800610, 3854317833, 845560923, 2636160359, 3968280267, 1881225380, 3552024379, 2482346367, 996719219, 2952069057, 4043988066, 176896406, 1924104970, 2483675966, 610538786, 2672279444, 4037431130, 1042573945, 657669027, 206005234, 2215296807, 2049510749, 106709978, 4215179723, 3430291419, 3118885940, 2845390439, 2226839261, 3256115900, 344409900, 2987358873, 4015503821, 3957764664, 2682456414, 2025622859, 2755645205, 1720397816, 4004225740, 313650667]

def qidS64v3 : List Nat := [1349398616, 3550093669, 80891244, 3093179625, 1593118500, 4212265488, 2492278198, 2518632596]

def qidDig3 : List Nat := [186, 120, 22, 191, 143, 1, 207, 234, 65, 65, 64, 222, 93, 174, 34, 35, 176, 3, 97, 163, 150, 23, 122, 156, 180, 16, 255, 97, 242, 0, 21, 173]

/-! ## Helper lemmas: the Fisher–Yates shuffle is a permutation -/

/-- Replacing position `k` and re-consing the element read there permutes
the original list with the new element in front. -/
theorem get_cons_set_perm {α : Type} :
    ∀ (t : List α) (k : Nat) (x : α) (hk : k < t.length),
      List.Perm (t.get ⟨k, hk⟩ :: t.set k x) (x :: t)
  | [], k, _, hk => absurd hk (by simp)
  | y :: t, 0, x, _ => List.Perm.swap x y t
  | y :: t, k + 1, x, hk => by
    have hk' := Nat.lt_of_succ_lt_succ hk
    have ih := get_cons_set_perm t k x hk'
    have h1 : List.Perm (t.get ⟨k, hk'⟩ :: y :: t.set k x)
        (y :: t.get ⟨k, hk'⟩ :: t.set k x) := List.Perm.swap y _ _
    have h3 : List.Perm (y :: x :: t) (x :: y :: t) := List.Perm.swap x y t
    exact h1.trans ((ih.cons y).trans h3)

/-- The in-bounds double-`set` swap permutes the list. -/
theorem set_set_perm {α : Type} :
    ∀ (l : List α) (i j : Nat) (hi : i < l.length) (hj : j < l.length),
      List.Perm ((l.set i (l.get ⟨j, hj⟩)).set j (l.get ⟨i, hi⟩)) l
  | [], _, _, hi, _ => absurd hi (by simp)
  | x :: t, 0, 0, _, _ => by simp
  | x :: t, 0, k + 1, _, hj => by
    simpa using get_cons_set_perm t k x (Nat.lt_of_succ_lt_succ hj)
  | x :: t, m + 1, 0, hi, _ => by
    simpa using get_cons_set_perm t m x (Nat.lt_of_succ_lt_succ hi)
  | x :: t, m + 1, k + 1, hi, hj => by
    simpa using (set_set_perm t m k (Nat.lt_of_succ_lt_succ hi)
      (Nat.lt_of_succ_lt_succ hj)).cons x

/-- `listSwap` always permutes. -/
theorem listSwap_perm {α : Type} (l : List α) (i j : Nat) :
    List.Perm (listSwap l i j) l := by
  unfold listSwap
  cases hi : l[i]? with
  | none => exact List.Perm.refl l
  | some a =>
    cases hj : l[j]? with
    | none => exact List.Perm.refl l
    | some b =>
      have hi' : i < l.length := by
        by_contra h
        simp [List.getElem?_eq_none (Nat.le_of_not_lt h)] at hi
      have hj' : j < l.length := by
        by_contra h
        simp [List.getElem?_eq_none (Nat.le_of_not_lt h)] at hj
      have ha : a = l.get ⟨i, hi'⟩ := by
        rw [List.getElem?_eq_getElem hi'] at hi
        exact (Option.some.inj hi).symm
      have hb : b = l.get ⟨j, hj'⟩ := by
        rw [List.getElem?_eq_getElem hj'] at hj
        exact (Option.some.inj hj).symm
      rw [ha, hb]
      exact set_set_perm l i j hi' hj'

/-- Every run of the Fisher–Yates loop permutes its input. -/
theorem fyLoop_perm {α : Type} :
    ∀ (n : Nat) (l : List α) (js : List Nat), List.Perm (fyLoop l n js) l
  | 0, l, _ => List.Perm.refl l
  | n + 1, l, js =>
    (fyLoop_perm n (listSwap l (n + 1) (js.headD 0 % (n + 2))) js.tail).trans
      (listSwap_perm l (n + 1) (js.headD 0 % (n + 2)))

/-- `shuffleOptions` permutes its input, whatever the generator draws. -/
theorem shuffleOptions_perm (options : List String) (js : List Nat) :
    List.Perm (shuffleOptions options js) options :=
  fyLoop_perm (options.length - 1) options js

/-- C10: `shuffleOptions` returns a permutation of its input: same length
and same multiset of elements, for every sequence of generator draws.  The
Go function copies the slice before swapping, and the model operates on an
immutable copy accordingly, so the caller's slice is unmodified; since the
multiset is preserved, no option is added, dropped or altered, and in
particular the correct answer stays among the options. -/
theorem shuffleOptions_is_permutation (options : List String) (js : List Nat) :
    (shuffleOptions options js).length = options.length ∧
    (shuffleOptions options js : Multiset String) = (options : Multiset String) :=
  ⟨(shuffleOptions_perm options js).length_eq,
   Multiset.coe_eq_coe.mpr (shuffleOptions_perm options js)⟩

/-! ## Helper: `find?` over an appended row -/

/-- `find?` over `l ++ [x]` when nothing in `l` matches. -/
theorem find?_append_singleton {α : Type} (p : α → Bool) (l : List α) (x : α)
    (h : l.find? p = none) :
    (l ++ [x]).find? p = if p x then some x else none := by
  rw [List.find?_append, h]
  cases hp : p x <;> simp [List.find?, hp]

/-- C7: submitting the same answer twice is idempotent — the second call
returns the same response as the first, leaves the store exactly as the
first call left it (no second write), and the pair of calls creates at
most one stored `UserAnswer` row. -/
theorem submitAnswer_idempotent (db : DB) (req : SubmitAnswerRequest) :
    (SubmitAnswer (SubmitAnswer db req).2 req).1 = (SubmitAnswer db req).1 ∧
    (SubmitAnswer (SubmitAnswer db req).2 req).2 = (SubmitAnswer db req).2 ∧
    (SubmitAnswer db req).2.userAnswers.length ≤ db.userAnswers.length + 1 := by
  cases h1 : FindExistingAnswer db req.UserID req.SessionID req.QuestionID with
  | some existing =>
    simp [SubmitAnswer, h1, Nat.le_succ]
  | none =>
    cases h2 : FindGeneratedByQuestionID db req.QuestionID with
    | none => simp [SubmitAnswer, h1, h2, Nat.le_succ]
    | some generatedQ =>
      have hfind : FindExistingAnswer
          (SubmitAnswer db req).2 req.UserID req.SessionID req.QuestionID =
          some { UserID := req.UserID
                 SessionID := req.SessionID
                 QuestionID := req.QuestionID
                 UserAnswer := req.Answer
                 CorrectAnswer := generatedQ.CorrectAnswer
                 IsCorrect := trimGo (toUpperGo req.Answer) == trimGo (toUpperGo generatedQ.CorrectAnswer)
                 QuestionText := generatedQ.QuestionText
                 Difficulty := generatedQ.Difficulty } := by
        simp only [SubmitAnswer, h1, h2]
        unfold FindExistingAnswer CreateUserAnswer
        rw [find?_append_singleton _ _ _ h1]
        simp
      constructor
      · simp only [SubmitAnswer, h1, h2]
        simp only [SubmitAnswer, h1, h2] at hfind
        rw [hfind]
      · constructor
        · simp only [SubmitAnswer, h1, h2]
          simp only [SubmitAnswer, h1, h2] at hfind
          rw [hfind]
        · simp [SubmitAnswer, h1, h2, CreateUserAnswer]

/-! ## C9: the feedback-insertion guard -/

/-- C9 counterexample: in `dbC9` an assistant-role message already exists
for session `s`, yet `saveFeedbackToChat` does not skip — it appends a
third message — because the guard only inspects the session's oldest
message (`LIMIT 1` under `ORDER BY created_at ASC`), which has role
`user` here. -/
theorem saveFeedbackToChat_guard_counterexample :
    (dbC9.chats.any (fun m => m.SessionID == "s" && m.Role == "assistant")) = true ∧
    (saveFeedbackToChat dbC9 "s" "A" "R").chats.length = dbC9.chats.length + 1 := by
  decide

/-- C9 amended: the insertion is skipped exactly when the session's
*oldest* chat message exists and has role `assistant`; whenever the
session has no messages or its oldest message has another role, the
feedback is appended — even if an assistant message exists later. -/
theorem saveFeedbackToChat_guard (db : DB) (sid a r : String) :
    ((∃ m, (db.chats.filter (fun c => c.SessionID == sid)).head? = some m ∧
        m.Role = "assistant") →
      saveFeedbackToChat db sid a r = db) ∧
    ((∀ m, (db.chats.filter (fun c => c.SessionID == sid)).head? = some m →
        m.Role ≠ "assistant") →
      (saveFeedbackToChat db sid a r).chats =
        db.chats ++ [{ SessionID := sid, Role := "assistant",
                       Message := feedbackMessage a r }]) := by
  unfold saveFeedbackToChat FindChatMessagesBySessionID
  cases hf : db.chats.filter (fun c => c.SessionID == sid) with
  | nil =>
    refine ⟨fun ⟨m, hm, _⟩ => by simp at hm, fun _ => ?_⟩
    simp [CreateChatMessage]
  | cons m rest =>
    constructor
    · rintro ⟨m', hm', hrole⟩
      simp only [List.head?] at hm'
      cases hm'
      simp [List.take, hrole]
    · intro hall
      have hrole := hall m (by simp [List.head?])
      have : (m.Role == "assistant") = false := by
        cases heq : m.Role == "assistant"
        · rfl
        · exact absurd (beq_iff_eq.mp heq) hrole
      simp [List.take, this, CreateChatMessage]

/-- Witness for the amended C9 guard at concrete states: skipped when the
oldest message is the assistant feedback, inserted into an empty session. -/
theorem saveFeedbackToChat_guard_witness :
    saveFeedbackToChat dbC9skip "s" "A" "R" = dbC9skip ∧
    (saveFeedbackToChat dbEmpty "s" "A" "R").chats =
      [{ SessionID := "s", Role := "assistant",
         Message := feedbackMessage "A" "R" }] :=
  ⟨(saveFeedbackToChat_guard dbC9skip "s" "A" "R").1
      ⟨{ SessionID := "s", Role := "assistant", Message := "fb" }, rfl, rfl⟩,
   by
    have h := (saveFeedbackToChat_guard dbEmpty "s" "A" "R").2
      (fun m hm => by simp [dbEmpty] at hm)
    simpa [dbEmpty] using h⟩

/-! ## C6: conversation context loads the oldest, not the last, messages -/

/-- C6: on a session holding eleven messages, the conversation context
`ChatWithBot` builds is the system prompt, then messages `m1 … m10` — the
*oldest* ten, because the history query orders `created_at ASC` before
applying `LIMIT 10` — and then the new user message; the last ten messages
would be `m2 … m11`.  The new user message does come after the history,
after the system prompt. -/
theorem chatWithBot_context_oldest_ten :
    buildChatMessages dbC6 "s" "sys" "new" =
      [("system", "sys"), ("user", "m1"), ("assistant", "m2"), ("user", "m3"),
       ("assistant", "m4"), ("user", "m5"), ("assistant", "m6"), ("user", "m7"),
       ("assistant", "m8"), ("user", "m9"), ("assistant", "m10"), ("user", "new")] ∧
    (FindChatMessagesBySessionID dbC6 "s" 10).map (fun m => m.Message) ≠
      ["m2", "m3", "m4", "m5", "m6", "m7", "m8", "m9", "m10", "m11"] := by
  decide

/-! ## C1: the cache path ignores the letter-pair filter -/

/-- C1: a `Generate` call with `useAI = false`, allowed pair set `{b-d}`
and a session ID returns the cached `m-n` question: the letter-pair filter
is assembled but never passed to the repository query, so the returned
question's target pair lies outside the allowed set (difficulty and
session exclusion are applied).  The shuffle draws `[3, 2, 1]` make each
Fisher–Yates swap a self-swap, leaving the stored option order. -/
theorem generateCache_ignores_pattern_filter :
    GenerateCache dbC1 "easy" 1 true ["b-d"] "sess" [[3, 2, 1]] =
      .ok [{ ID := "q-mn-1"
             Difficulty := "easy"
             QuestionText := "Dengarkan kata berikut: "
             TargetLetterPair := "m-n"
             TargetLetter := "m"
             Options := ["makan", "nakan", "main", "nain"]
             Answer := "makan" }] ∧
    ("m-n" ∈ ["b-d"]) = False := by
  constructor
  · rfl
  · simp

/-! ## C4: option deduplication and the fallback on too few options -/

/-- No element already in the seen set reappears in `dedupOptsGo`'s
output. -/
theorem dedupOptsGo_not_mem :
    ∀ (opts seen : List String) (x : String), x ∈ seen → x ∉ dedupOptsGo opts seen
  | [], _, _, _ => by simp [dedupOptsGo]
  | opt :: rest, seen, x, hx => by
    unfold dedupOptsGo
    by_cases hkeep : (opt != "" && !(seen.contains opt)) = true
    · rw [if_pos hkeep]
      have hnc := ((Bool.and_eq_true _ _).mp hkeep).2
      have hopt : opt ∉ seen := by
        intro hmem
        have hc : seen.contains opt = true := List.elem_iff.mpr hmem
        rw [hc] at hnc
        simp at hnc
      intro hin
      rcases List.mem_cons.mp hin with heq | htail
      · exact hopt (heq ▸ hx)
      · exact dedupOptsGo_not_mem rest (opt :: seen) x (List.mem_cons_of_mem _ hx) htail
    · rw [if_neg hkeep]
      exact dedupOptsGo_not_mem rest seen x hx

/-- `dedupOptsGo` produces no duplicates. -/
theorem dedupOptsGo_nodup :
    ∀ (opts seen : List String), (dedupOptsGo opts seen).Nodup
  | [], _ => by simp [dedupOptsGo]
  | opt :: rest, seen => by
    unfold dedupOptsGo
    by_cases hkeep : (opt != "" && !(seen.contains opt)) = true
    · rw [if_pos hkeep]
      exact List.nodup_cons.mpr
        ⟨dedupOptsGo_not_mem rest (opt :: seen) opt (List.mem_cons_self _ _),
         dedupOptsGo_nodup rest (opt :: seen)⟩
    · rw [if_neg hkeep]
      exact dedupOptsGo_nodup rest seen

/-- C4: with the non-empty correct answer `generateFromAI` has already
checked for, deduplication puts the correct answer at index 0 and drops
every subsequent option equal to an earlier one (the result has no
duplicates); and whenever fewer than 2 unique options remain, the slot
treats generation as failed and uses the fixed in-memory fallback word
list (`createFallbackQuestionWithShuffle`). -/
theorem deduplicateOptions_spec (opts : List String) (ca : String)
    (hca : ca ≠ "") :
    (deduplicateOptions opts ca).head? = some ca ∧
    (deduplicateOptions opts ca).Nodup ∧
    (∀ (difficulty letterPair : String) (o : SlotOracle),
      o.ai = some { CorrectAnswer := ca, Options := opts } →
      (deduplicateOptions opts ca).length < 2 →
      slotGenerate false difficulty letterPair o =
        (createFallbackQuestionWithShuffle difficulty letterPair true
          o.fbSalt o.fbShuffle, none)) := by
  have hbeq : (ca != "") = true := by
    cases heq : ca == "" with
    | false => simp [bne, heq]
    | true => exact absurd (beq_iff_eq.mp heq) hca
  refine ⟨?_, ?_, ?_⟩
  · simp [deduplicateOptions, hbeq]
  · simp only [deduplicateOptions, hbeq, if_pos]
    exact List.nodup_cons.mpr
      ⟨dedupOptsGo_not_mem opts [ca] ca (List.mem_cons_self _ _),
       dedupOptsGo_nodup opts [ca]⟩
  · intro difficulty letterPair o hai hlen
    unfold slotGenerate generateFromAI
    rw [hai]
    simp only [Bool.if_false_left]
    by_cases hfirst : (opts.length < 2 || (ca == "")) = true
    · simp [hfirst]
    · simp only [hfirst]
      simp [if_pos hlen]

/-- Witness for C4 at a concrete reply: the correct answer leads the
deduplicated list, the list is duplicate-free, and — having only 1 unique
option — the slot falls back to the fixed word list. -/
theorem deduplicateOptions_spec_witness :
    (deduplicateOptions ["bola", "bola"] "bola").head? = some "bola" ∧
    (deduplicateOptions ["bola", "bola"] "bola").Nodup ∧
    slotGenerate false "easy" "b-d" c4oracle =
      (createFallbackQuestionWithShuffle "easy" "b-d" true "s2" [3, 2, 1], none) := by
  have h := deduplicateOptions_spec ["bola", "bola"] "bola" (by decide)
  exact ⟨h.1, h.2.1, h.2.2 "easy" "b-d" c4oracle rfl (by decide)⟩

/-! ## C5: analysis retry with linear backoff and the transport fallback -/

/-- C5: the session-report analysis call is retried, with a linear backoff
of `attempt × 500` ms, on transport error **and** on JSON parse failure
alike: a failed first attempt of either kind is followed by one backoff
sleep and a second call whose success is returned (part 1); two failures
of any mix are followed by sleeps of 500 then 1000 ms and a third call
(part 2); three failures of any mix exhaust the retries after exactly 3
calls and the sleeps `[500, 1000]`, substituting a fallback labelled
`"baik"` (part 3); and when the LLM is unreachable (every attempt a
transport error) the fixed fallback analysis text and recommendations are
substituted and `GenerateSessionReport`, on a session with answers, still
returns a report carrying them — never an error from this path
(part 4). -/
theorem generateSessionReport_retry_and_fallback (db : DB) (sid : String)
    (outcomes : Nat → LLMOutcome)
    (hans : FindUserAnswersBySessionID db sid ≠ []) :
    (∀ a r v, (outcomes 1 = .err ∨ outcomes 1 = .badJSON) →
      outcomes 2 = .ok a r v →
      generateAIAnalysis true outcomes = ((a, r, v), 2, [500])) ∧
    (∀ a r v, (outcomes 1 = .err ∨ outcomes 1 = .badJSON) →
      (outcomes 2 = .err ∨ outcomes 2 = .badJSON) →
      outcomes 3 = .ok a r v →
      generateAIAnalysis true outcomes = ((a, r, v), 3, [500, 1000])) ∧
    ((∀ i, 1 ≤ i → i ≤ 3 → (outcomes i = .err ∨ outcomes i = .badJSON)) →
      (generateAIAnalysis true outcomes).2 = (3, [500, 1000]) ∧
      (generateAIAnalysis true outcomes).1.2.2 = "baik") ∧
    ((∀ i, outcomes i = .err) →
      generateAIAnalysis true outcomes = (analysisFallbackTransport, 3, [500, 1000]) ∧
      ∃ r, (GenerateSessionReport db sid true outcomes).1 = .ok r ∧
        r.AIAnalysys =
          "Sesi latihan telah selesai. Terus berlatih untuk meningkatkan kemampuan membaca." ∧
        r.Recommendations = "Fokus pada huruf-huruf yang masih sering tertukar." ∧
        r.OverallValue = "baik") := by
  refine ⟨?_, ?_, ?_, ?_⟩
  · intro a r v h1 h2
    rcases h1 with h1 | h1 <;>
      simp [generateAIAnalysis, analysisLoop, h1, h2]
  · intro a r v h1 h2 h3
    rcases h1 with h1 | h1 <;> rcases h2 with h2 | h2 <;>
      simp [generateAIAnalysis, analysisLoop, h1, h2, h3]
  · intro h
    have h1 := h 1 (by decide) (by decide)
    have h2 := h 2 (by decide) (by decide)
    have h3 := h 3 (by decide) (by decide)
    rcases h1 with h1 | h1 <;> rcases h2 with h2 | h2 <;> rcases h3 with h3 | h3 <;>
      simp [generateAIAnalysis, analysisLoop, h1, h2, h3,
        analysisFallbackTransport, analysisFallbackParse]
  · intro hout
    have hana : generateAIAnalysis true outcomes =
        (analysisFallbackTransport, 3, [500, 1000]) := by
      simp [generateAIAnalysis, analysisLoop, hout 1, hout 2, hout 3]
    refine ⟨hana, ?_⟩
    have hne : (FindUserAnswersBySessionID db sid).isEmpty = false := by
      cases h : FindUserAnswersBySessionID db sid with
      | nil => exact absurd h hans
      | cons a t => rfl
    refine ⟨{ SessionID := sid
              TotalQuestions := (FindUserAnswersBySessionID db sid).length
              CorrectAnswers := countCorrect (FindUserAnswersBySessionID db sid)
              WrongAnswers := ((FindUserAnswersBySessionID db sid).filter
                (fun a => !a.IsCorrect)).length
              AccuracyRate := formatPct (countCorrect (FindUserAnswersBySessionID db sid))
                (FindUserAnswersBySessionID db sid).length
              OverallValue := (generateAIAnalysis true outcomes).1.2.2
              ErrorPatterns := buildErrorPatterns
                (letterPairStats db (FindUserAnswersBySessionID db sid))
              DifficultyStats := (FindUserAnswersBySessionID db sid).foldl
                (fun acc a => bumpAssoc acc a.Difficulty) []
              AIAnalysys := (generateAIAnalysis true outcomes).1.1
              Recommendations := (generateAIAnalysis true outcomes).1.2.1 },
          ?_, ?_, ?_, ?_⟩
    · simp [GenerateSessionReport, hne]
    · simp [hana, analysisFallbackTransport]
    · simp [hana, analysisFallbackTransport]
    · simp [hana, analysisFallbackTransport]

/-- Witness for C5 at concrete outcome streams on `dbC5`: a parse failure
is retried (one 500 ms backoff, success on the second call returned); a
transport error followed by a parse failure is retried twice (sleeps 500
then 1000 ms, success on the third call returned); three parse failures
exhaust the retries with 3 calls, sleeps `[500, 1000]` and label `"baik"`;
and all-transport-error attempts substitute the fixed fallback, with
`GenerateSessionReport` still returning a report. -/
theorem generateSessionReport_retry_and_fallback_witness :
    generateAIAnalysis true c5parseThenOk = (("A", "R", "baik"), 2, [500]) ∧
    generateAIAnalysis true c5errThenParseThenOk =
      (("A", "R", "baik"), 3, [500, 1000]) ∧
    ((generateAIAnalysis true (fun _ => .badJSON)).2 = (3, [500, 1000]) ∧
      (generateAIAnalysis true (fun _ => .badJSON)).1.2.2 = "baik") ∧
    (generateAIAnalysis true (fun _ => .err) =
      (analysisFallbackTransport, 3, [500, 1000]) ∧
    ∃ r, (GenerateSessionReport dbC5 "s" true (fun _ => .err)).1 = .ok r ∧
      r.AIAnalysys =
        "Sesi latihan telah selesai. Terus berlatih untuk meningkatkan kemampuan membaca." ∧
      r.Recommendations = "Fokus pada huruf-huruf yang masih sering tertukar." ∧
      r.OverallValue = "baik") :=
  ⟨(generateSessionReport_retry_and_fallback dbC5 "s" c5parseThenOk
      (by decide)).1 "A" "R" "baik" (Or.inr rfl) rfl,
   (generateSessionReport_retry_and_fallback dbC5 "s" c5errThenParseThenOk
      (by decide)).2.1 "A" "R" "baik" (Or.inl rfl) (Or.inr rfl) rfl,
   (generateSessionReport_retry_and_fallback dbC5 "s" (fun _ => .badJSON)
      (by decide)).2.2.1 (fun i _ _ => Or.inr rfl),
   (generateSessionReport_retry_and_fallback dbC5 "s" (fun _ => .err)
      (by decide)).2.2.2 (fun _ => rfl)⟩

/-! ## C2: batch deduplication invariants -/

/-- Invariants of the batch-deduplication loop: the kept questions have
pairwise-distinct IDs, none of them was in the initial seen set, the seen
set only grows, and every kept ID is in the final seen set. -/
theorem dedupBatchLoop_spec :
    ∀ (qs : List GQ) (seen : List String),
      ((dedupBatchLoop qs seen).1.map GQ.ID).Nodup ∧
      (∀ q ∈ (dedupBatchLoop qs seen).1, q.ID ∉ seen) ∧
      (∀ s ∈ seen, s ∈ (dedupBatchLoop qs seen).2) ∧
      (∀ q ∈ (dedupBatchLoop qs seen).1, q.ID ∈ (dedupBatchLoop qs seen).2)
  | [], seen => by simp [dedupBatchLoop]
  | q :: rest, seen => by
    unfold dedupBatchLoop
    by_cases hc : seen.contains q.ID = true
    · rw [if_pos hc]
      exact dedupBatchLoop_spec rest seen
    · rw [if_neg hc]
      have hqs : q.ID ∉ seen := fun hmem => hc (List.elem_iff.mpr hmem)
      have ih := dedupBatchLoop_spec rest (q.ID :: seen)
      refine ⟨?_, ?_, ?_, ?_⟩
      · refine List.nodup_cons.mpr ⟨?_, ih.1⟩
        intro hmem
        rcases List.mem_map.mp hmem with ⟨q', hq', hid⟩
        exact ih.2.1 q' hq' (hid ▸ List.mem_cons_self _ _)
      · intro x hx
        rcases List.mem_cons.mp hx with rfl | hx'
        · exact hqs
        · exact fun hmem => ih.2.1 x hx' (List.mem_cons_of_mem _ hmem)
      · exact fun s hs => ih.2.2.1 s (List.mem_cons_of_mem _ hs)
      · intro x hx
        rcases List.mem_cons.mp hx with rfl | hx'
        · exact ih.2.2.1 x.ID (List.mem_cons_self _ _)
        · exact ih.2.2.2 x hx'

/-- Invariants of the bounded replacement loop: starting from an
accumulator with distinct IDs all tracked by the seen set, which also
contains every excluded ID, the final list still has pairwise-distinct IDs
and stays disjoint from the excluded IDs. -/
theorem replacementLoop_spec (repls : Nat → SlotOracle)
    (letterPairs : List String) (disableAI : Bool) (difficulty : String) :
    ∀ (fuel i : Nat) (acc : List GQ) (seen excluded : List String) (cnt : Nat),
      ((acc.map GQ.ID).Nodup) →
      (∀ q ∈ acc, q.ID ∈ seen) →
      (∀ s ∈ excluded, s ∈ seen) →
      (∀ q ∈ acc, q.ID ∉ excluded) →
      (((replacementLoop repls letterPairs disableAI difficulty
          fuel i acc seen cnt).1.map GQ.ID).Nodup ∧
        ∀ q ∈ (replacementLoop repls letterPairs disableAI difficulty
          fuel i acc seen cnt).1, q.ID ∉ excluded)
  | 0, _, acc, seen, excluded, cnt => by
    intro hnodup _ _ hdisj
    exact ⟨hnodup, hdisj⟩
  | fuel + 1, i, acc, seen, excluded, cnt => by
    intro hnodup hsub hexc hdisj
    unfold replacementLoop
    dsimp only
    set q := (slotGenerate disableAI difficulty
      (letterPairs.getD ((repls i).pairIdx % letterPairs.length) "") (repls i)).1 with hq
    by_cases hc : seen.contains q.ID = true
    · rw [if_pos hc]
      by_cases hlen : cnt ≤ acc.length
      · rw [if_pos (show cnt ≤ ((acc, seen) : List GQ × List String).1.length from hlen)]
        exact ⟨hnodup, hdisj⟩
      · rw [if_neg (show ¬cnt ≤ ((acc, seen) : List GQ × List String).1.length from hlen)]
        exact replacementLoop_spec repls letterPairs disableAI difficulty
          fuel (i + 1) acc seen excluded cnt hnodup hsub hexc hdisj
    · rw [if_neg hc]
      have hqs : q.ID ∉ seen := fun hmem => hc (List.elem_iff.mpr hmem)
      have hnodup' : ((acc ++ [q]).map GQ.ID).Nodup := by
        rw [List.map_append]
        refine List.nodup_append.mpr ⟨hnodup, by simp, ?_⟩
        intro x hx hx'
        rcases List.mem_map.mp hx with ⟨q', hq', rfl⟩
        simp only [List.map_cons, List.map_nil, List.mem_singleton] at hx'
        exact hqs (hx' ▸ hsub q' hq')
      have hsub' : ∀ x ∈ acc ++ [q], x.ID ∈ q.ID :: seen := by
        intro x hx
        rcases List.mem_append.mp hx with hx' | hx'
        · exact List.mem_cons_of_mem _ (hsub x hx')
        · simp only [List.mem_singleton] at hx'
          exact hx' ▸ List.mem_cons_self _ _
      have hexc' : ∀ s ∈ excluded, s ∈ q.ID :: seen :=
        fun s hs => List.mem_cons_of_mem _ (hexc s hs)
      have hdisj' : ∀ x ∈ acc ++ [q], x.ID ∉ excluded := by
        intro x hx
        rcases List.mem_append.mp hx with hx' | hx'
        · exact hdisj x hx'
        · simp only [List.mem_singleton] at hx'
          exact hx' ▸ fun hmem => hqs (hexc _ hmem)
      by_cases hlen : cnt ≤ (acc ++ [q]).length
      · rw [if_pos (show cnt ≤ ((acc ++ [q], q.ID :: seen) : List GQ × List String).1.length from hlen)]
        exact ⟨hnodup', hdisj'⟩
      · rw [if_neg (show ¬cnt ≤ ((acc ++ [q], q.ID :: seen) : List GQ × List String).1.length from hlen)]
        exact replacementLoop_spec repls letterPairs disableAI difficulty
          fuel (i + 1) (acc ++ [q]) (q.ID :: seen) excluded cnt
          hnodup' hsub' hexc' hdisj'

/-- Stripping the answer field leaves every question's ID unchanged. -/
theorem strip_preserves_ids (l : List GQ) :
    (l.map (fun q => { q with Answer := "" })).map GQ.ID = l.map GQ.ID := by
  induction l with
  | nil => rfl
  | cons q t ih => simp [ih]

/-- C2: for every `Generate` call with `useAI = true` and a supplied
session, the returned list contains no two questions with the same ID,
and no returned ID equals a question ID already answered in that session
(an ID occurring in a stored `UserAnswer` row of the session), whatever
the AI replies, the random draws, and the replacement candidates were. -/
theorem generateAI_no_duplicate_ids (db : DB) (difficulty : String)
    (count : Int) (includeAnswer : Bool) (patterns : List String)
    (sessionID : String) (disableAI : Bool) (slots repls : Nat → SlotOracle)
    (res : List GQ) (saves : List (GQ × String))
    (hs : sessionID ≠ "")
    (hres : GenerateAI db difficulty count includeAnswer patterns sessionID
      disableAI slots repls = .ok (res, saves)) :
    (res.map GQ.ID).Nodup ∧
    ∀ q ∈ res, ∀ a ∈ db.userAnswers, a.SessionID = sessionID →
      a.QuestionID ≠ q.ID := by
  rcases hlp : resolveLetterPairs patterns with e | lps
  · rw [GenerateAI, hlp] at hres
    exact absurd hres (by simp)
  · rw [GenerateAI, hlp] at hres
    simp only [Except.ok.injEq, Prod.mk.injEq] at hres
    obtain ⟨h1, _⟩ := hres
    have key : ∀ (qs : List GQ) (cnt : Nat),
        ((if (dedupBatchLoop qs (excludedQuestionIDs db sessionID)).1.length < cnt then
            replacementLoop repls lps disableAI (defaultDifficulty difficulty)
              (min (cnt - (dedupBatchLoop qs (excludedQuestionIDs db sessionID)).1.length) 5) 0
              (dedupBatchLoop qs (excludedQuestionIDs db sessionID)).1
              (dedupBatchLoop qs (excludedQuestionIDs db sessionID)).2 cnt
          else ((dedupBatchLoop qs (excludedQuestionIDs db sessionID)).1, [])).1.map GQ.ID).Nodup ∧
        ∀ q ∈ (if (dedupBatchLoop qs (excludedQuestionIDs db sessionID)).1.length < cnt then
            replacementLoop repls lps disableAI (defaultDifficulty difficulty)
              (min (cnt - (dedupBatchLoop qs (excludedQuestionIDs db sessionID)).1.length) 5) 0
              (dedupBatchLoop qs (excludedQuestionIDs db sessionID)).1
              (dedupBatchLoop qs (excludedQuestionIDs db sessionID)).2 cnt
          else ((dedupBatchLoop qs (excludedQuestionIDs db sessionID)).1, [])).1,
          q.ID ∉ excludedQuestionIDs db sessionID := by
      intro qs cnt
      have hb := dedupBatchLoop_spec qs (excludedQuestionIDs db sessionID)
      by_cases hlt : (dedupBatchLoop qs (excludedQuestionIDs db sessionID)).1.length < cnt
      · rw [if_pos hlt]
        exact replacementLoop_spec repls lps disableAI (defaultDifficulty difficulty)
          _ 0 _ _ (excludedQuestionIDs db sessionID) cnt
          hb.1 hb.2.2.2 hb.2.2.1 hb.2.1
      · rw [if_neg hlt]
        exact ⟨hb.1, hb.2.1⟩
    have hmem_exc : ∀ a ∈ db.userAnswers, a.SessionID = sessionID →
        a.QuestionID ∈ excludedQuestionIDs db sessionID := by
      intro a ha hsid
      unfold excludedQuestionIDs
      rw [if_neg (fun h => hs (beq_iff_eq.mp h))]
      exact List.mem_map.mpr ⟨a, List.mem_filter.mpr ⟨ha, by simp [hsid]⟩, rfl⟩
    rw [← h1]
    cases includeAnswer with
    | true =>
      simp only [if_true]
      refine ⟨(key _ _).1, ?_⟩
      intro q hq a ha hsid heq
      exact (key _ _).2 q hq (heq ▸ hmem_exc a ha hsid)
    | false =>
      simp only [Bool.false_eq_true, if_false]
      constructor
      · rw [strip_preserves_ids]
        exact (key _ _).1
      · intro q hq a ha hsid heq
        rcases List.mem_map.mp hq with ⟨q₀, hq₀, rfl⟩
        exact (key _ _).2 q₀ hq₀ (heq ▸ hmem_exc a ha hsid)

/-- Witness for C2 at a concrete call (`count = 1`, AI administratively
disabled, session `s`). -/
theorem generateAI_no_duplicate_ids_witness :
    (c2pair.1.map GQ.ID).Nodup ∧
    ∀ q ∈ c2pair.1, ∀ a ∈ dbC2.userAnswers, a.SessionID = "s" →
      a.QuestionID ≠ q.ID :=
  generateAI_no_duplicate_ids dbC2 "easy" 1 true [] "s" true
    (fun _ => c2oracle) (fun _ => c2oracle) c2pair.1 c2pair.2
    (by decide) rfl

/-! ## C8: answers stripped from the response, kept in the saved copy -/

/-- Whatever a slot saves has a non-empty answer: the save only happens on
AI success, which requires a non-empty correct answer, and the slot
generates with `includeAnswer = true`. -/
theorem slotGenerate_save_answer (disableAI : Bool) (d lp : String)
    (o : SlotOracle) (p : GQ × String)
    (hp : (slotGenerate disableAI d lp o).2 = some p) :
    p.1.Answer ≠ "" := by
  unfold slotGenerate at hp
  cases disableAI with
  | true => simp at hp
  | false =>
    revert hp
    unfold generateFromAI
    cases hai : o.ai with
    | none => simp
    | some parsed =>
      by_cases h1 : (parsed.Options.length < 2 || parsed.CorrectAnswer == "") = true
      · simp [h1]
      · simp only [h1, Bool.false_eq_true, if_false]
        by_cases h2 : (deduplicateOptions parsed.Options parsed.CorrectAnswer).length < 2
        · simp [h2]
        · simp only [h2, if_false]
          intro hp
          simp only [Option.some.injEq] at hp
          have hca : (parsed.CorrectAnswer == "") = false := by
            have hfalse : (decide (parsed.Options.length < 2) ||
                (parsed.CorrectAnswer == "")) = false := Bool.eq_false_iff.mpr h1
            exact (Bool.or_eq_false_iff.mp hfalse).2
          rw [← hp]
          simp only [if_true]
          intro hempty
          rw [hempty] at hca
          simp at hca

/-- Every save request of the replacement loop comes from a slot save. -/
theorem replacementLoop_saves (repls : Nat → SlotOracle)
    (letterPairs : List String) (disableAI : Bool) (difficulty : String) :
    ∀ (fuel i : Nat) (acc : List GQ) (seen : List String) (cnt : Nat),
      ∀ p ∈ (replacementLoop repls letterPairs disableAI difficulty
        fuel i acc seen cnt).2,
        ∃ (lp : String) (o : SlotOracle),
          (slotGenerate disableAI difficulty lp o).2 = some p
  | 0, _, acc, seen, cnt => by simp [replacementLoop]
  | fuel + 1, i, acc, seen, cnt => by
    intro p hp
    unfold replacementLoop at hp
    dsimp only at hp
    set qs := slotGenerate disableAI difficulty
      (letterPairs.getD ((repls i).pairIdx % letterPairs.length) "") (repls i) with hqs
    by_cases hlen : cnt ≤ (if seen.contains qs.1.ID = true then (acc, seen)
        else (acc ++ [qs.1], qs.1.ID :: seen)).1.length
    · rw [if_pos hlen] at hp
      rcases qs2 : qs.2 with _ | p'
      · rw [qs2] at hp; simp at hp
      · rw [qs2] at hp
        simp only [Option.toList_some, List.mem_singleton] at hp
        exact ⟨_, repls i, hp ▸ qs2⟩
    · rw [if_neg hlen] at hp
      rcases List.mem_append.mp hp with hp' | hp'
      · rcases qs2 : qs.2 with _ | p''
        · rw [qs2] at hp'; simp at hp'
        · rw [qs2] at hp'
          simp only [Option.toList_some, List.mem_singleton] at hp'
          exact ⟨_, repls i, hp' ▸ qs2⟩
      · exact replacementLoop_saves repls letterPairs disableAI difficulty
          fuel (i + 1) _ _ cnt p hp'

/-- C8: when `includeAnswer` is false, every question in `Generate`'s
returned list has an empty answer field, while every copy handed to the
asynchronous cache persistence carries the true (non-empty) correct
answer, which the built `GeneratedQuestion` row retains in its
`CorrectAnswer` column. -/
theorem generateAI_strips_answers (db : DB) (difficulty : String)
    (count : Int) (patterns : List String) (sessionID : String)
    (disableAI : Bool) (slots repls : Nat → SlotOracle)
    (res : List GQ) (saves : List (GQ × String))
    (hres : GenerateAI db difficulty count false patterns sessionID
      disableAI slots repls = .ok (res, saves)) :
    (∀ q ∈ res, q.Answer = "") ∧
    (∀ p ∈ saves, p.1.Answer ≠ "" ∧
      (mkGeneratedRow p.1 p.2).CorrectAnswer = p.1.Answer) := by
  rcases hlp : resolveLetterPairs patterns with e | lps
  · rw [GenerateAI, hlp] at hres
    exact absurd hres (by simp)
  · rw [GenerateAI, hlp] at hres
    simp only [Except.ok.injEq, Prod.mk.injEq, Bool.false_eq_true, if_false] at hres
    obtain ⟨h1, h2⟩ := hres
    constructor
    · intro q hq
      rw [← h1] at hq
      rcases List.mem_map.mp hq with ⟨q₀, _, rfl⟩
      rfl
    · intro p hp
      rw [← h2] at hp
      refine ⟨?_, rfl⟩
      rcases List.mem_append.mp hp with hp' | hp'
      · rcases List.mem_filterMap.mp hp' with ⟨x, hx, hxp⟩
        rcases List.mem_map.mp hx with ⟨i, _, rfl⟩
        exact slotGenerate_save_answer disableAI (defaultDifficulty difficulty)
          (lps.getD ((slots i).pairIdx % lps.length) "") (slots i) p hxp
      · split at hp'
        · rcases replacementLoop_saves repls lps disableAI (defaultDifficulty difficulty)
            _ 0 _ _ _ p hp' with ⟨lp, o, ho⟩
          exact slotGenerate_save_answer disableAI (defaultDifficulty difficulty) lp o p ho
        · simp at hp'

/-- Witness for C8 at that call. -/
theorem generateAI_strips_answers_witness :
    (∀ q ∈ c8pair.1, q.Answer = "") ∧
    (∀ p ∈ c8pair.2, p.1.Answer ≠ "" ∧
      (mkGeneratedRow p.1 p.2).CorrectAnswer = p.1.Answer) :=
  generateAI_strips_answers dbEmpty "easy" 1 [] "s" false
    (fun _ => c8oracle) (fun _ => c8oracle) c8pair.1 c8pair.2 rfl

/-! ## C3: question-ID salting and lookup-before-insert -/

/-- C3 amended, persistence half: `saveGeneratedToDB` looks the ID up
before inserting — when a cached row with the question's ID already
exists, no row is added (the stored ID multiset is unchanged; only the
usage counter moves), and when none exists exactly one row carrying that
ID is appended. -/
theorem saveGeneratedToDB_dedup (db : DB) (q : GQ) (lp : String) :
    ((∃ row ∈ db.generated, row.QuestionID = q.ID) →
      (saveGeneratedToDB db q lp).generated.map
          (fun r => r.QuestionID) =
        db.generated.map (fun r => r.QuestionID)) ∧
    ((∀ row ∈ db.generated, row.QuestionID ≠ q.ID) →
      (saveGeneratedToDB db q lp).generated.map
          (fun r => r.QuestionID) =
        db.generated.map (fun r => r.QuestionID) ++ [q.ID]) := by
  constructor
  · rintro ⟨row, hrow, hid⟩
    have hsome : (FindGeneratedByQuestionID db q.ID).isSome = true :=
      List.find?_isSome.mpr ⟨row, hrow, by simp [hid]⟩
    unfold saveGeneratedToDB
    rcases hf : FindGeneratedByQuestionID db q.ID with _ | r
    · rw [hf] at hsome; simp at hsome
    · have hmap : ∀ (l : List DBGeneratedQuestion),
          (l.map (fun q' => if q'.QuestionID == q.ID then
            { q' with UsageCount := q'.UsageCount + 1 } else q')).map
              (fun r => r.QuestionID) =
            l.map (fun r => r.QuestionID) := by
        intro l
        induction l with
        | nil => rfl
        | cons a t ih =>
          simp only [List.map_cons, ih]
          congr 1
          split <;> rfl
      exact hmap db.generated
  · intro hnone
    have hfind : FindGeneratedByQuestionID db q.ID = none :=
      List.find?_eq_none.mpr (fun row hrow hbeq =>
        hnone row hrow (beq_iff_eq.mp hbeq))
    unfold saveGeneratedToDB
    rw [hfind]
    simp [CreateGenerated, mkGeneratedRow]

/-- Witness for the amended C3 at a concrete store: a duplicate save
leaves the stored IDs unchanged, and a fresh save appends exactly the new
ID. -/
theorem saveGeneratedToDB_dedup_witness :
    (saveGeneratedToDB
        { generated := [c3row], userAnswers := [], chats := [], analysisCache := [] }
        c3q "b-d").generated.map (fun r => r.QuestionID) = ["q-abc"] ∧
    (saveGeneratedToDB dbEmpty c3q "b-d").generated.map
        (fun r => r.QuestionID) = ["q-abc"] := by
  constructor
  · have h := (saveGeneratedToDB_dedup
      { generated := [c3row], userAnswers := [], chats := [], analysisCache := [] }
      c3q "b-d").1 ⟨c3row, by simp, rfl⟩
    rw [h]
    rfl
  · have h := (saveGeneratedToDB_dedup dbEmpty c3q "b-d").2
      (fun row hrow => by simp [dbEmpty] at hrow)
    rw [h]
    rfl

/-! ## Concrete SHA-256 evaluations (for the C3 counterexample)

The digests below are forced in stages — padded message, block split,
message schedule, round fold, final addition — so each `decide` works on
literal inputs. -/

theorem sha256K_eq : sha256K = sha256KLit := by decide

theorem sha256H0_eq : sha256H0 = sha256H0Lit := by decide

theorem sha_eval_1 : sha256 qidMsg1 = qidDig1 := by
  have hpad : sha256Pad qidMsg1 = qidPad1 := by decide
  unfold sha256
  rw [hpad]
  have hch : chunks64 qidPad1.length qidPad1 = [qidPad1] := by decide
  rw [hch, List.foldl_cons, List.foldl_nil]
  unfold sha256Compress
  have hsched : sha256Schedule qidPad1 = qidSched1 := by decide
  rw [hsched, sha256K_eq, sha256H0_eq]
  have hfold : (sha256KLit.zip qidSched1).foldl sha256Round sha256H0Lit =
      qidS64v1 := by decide
  rw [hfold]
  decide

theorem sha_eval_2 : sha256 qidMsg2 = qidDig2 := by
  have hpad : sha256Pad qidMsg2 = qidPad2 := by decide
  unfold sha256
  rw [hpad]
  have hch : chunks64 qidPad2.length qidPad2 = [qidPad2] := by decide
  rw [hch, List.foldl_cons, List.foldl_nil]
  unfold sha256Compress
  have hsched : sha256Schedule qidPad2 = qidSched2 := by decide
  rw [hsched, sha256K_eq, sha256H0_eq]
  have hfold : (sha256KLit.zip qidSched2).foldl sha256Round sha256H0Lit =
      qidS64v2 := by decide
  rw [hfold]
  decide

theorem sha_eval_3 : sha256 qidMsg3 = qidDig3 := by
  have hpad : sha256Pad qidMsg3 = qidPad3 := by decide
  unfold sha256
  rw [hpad]
  have hch : chunks64 qidPad3.length qidPad3 = [qidPad3] := by decide
  rw [hch, List.foldl_cons, List.foldl_nil]
  unfold sha256Compress
  have hsched : sha256Schedule qidPad3 = qidSched3 := by decide
  rw [hsched, sha256K_eq, sha256H0_eq]
  have hfold : (sha256KLit.zip qidSched3).foldl sha256Round sha256H0Lit =
      qidS64v3 := by decide
  rw [hfold]
  decide

theorem qid1_eval :
    generateQuestionID "bola" "easy" "1700000000000000000-0a0b0c0d" =
      "q-b17ef803c76f6aea" := by
  unfold generateQuestionID
  have hmsg : utf8Bytes ("bola" ++ "|" ++ "easy" ++ "|" ++
      "1700000000000000000-0a0b0c0d") = qidMsg1 := by decide
  rw [hmsg, sha_eval_1]
  decide

theorem qid2_eval :
    generateQuestionID "bola" "easy" "1700000000000000001-0a0b0c0d" =
      "q-4084451c5f76726c" := by
  unfold generateQuestionID
  have hmsg : utf8Bytes ("bola" ++ "|" ++ "easy" ++ "|" ++
      "1700000000000000001-0a0b0c0d") = qidMsg2 := by decide
  rw [hmsg, sha_eval_2]
  decide

/-- Sanity check of the hash core against the FIPS 180-4 `"abc"` vector. -/
theorem sha256_fips_abc :
    hexEncode (sha256 (utf8Bytes "abc")) =
      "ba7816bf8f01cfea414140de5dae2223b00361a396177a9cb410ff61f20015ad" := by
  have hmsg : utf8Bytes "abc" = qidMsg3 := by decide
  rw [hmsg, sha_eval_3]
  decide

/-- C3 counterexample: two ID generations for the same word `"bola"` and
difficulty `"easy"` — at the uniqueness salts two back-to-back calls would
draw (consecutive `UnixNano` timestamps, same random bytes) — yield
different IDs: the salt is part of the hashed content, so the ID is not
deterministic from word + difficulty. -/
theorem generateQuestionID_not_content_deterministic :
    generateQuestionID "bola" "easy" "1700000000000000000-0a0b0c0d" ≠
      generateQuestionID "bola" "easy" "1700000000000000001-0a0b0c0d" := by
  rw [qid1_eval, qid2_eval]
  decide
